import Mathlib

/-!
Verification of the SapIsuAssistant knowledge ingestion-and-retrieval core.

This file shallowly embeds the Python source of the repository:

* `src/assistant/storage/kb_repository.py`  (knowledge item store)
* `src/assistant/retrieval/qdrant_service.py` (vector index router)
* `src/assistant/chat/chat_service.py` (RAG service)
* `src/assistant/ingestion/synthesis.py` (synthesis pipeline)
* `src/shared/tokens.py` (token counting)

Modelling conventions, stated once here:

* The SQLite table `kb_items` is a `List Row`; `INSERT OR REPLACE` with
  `kb_id` as the primary key deletes every row carrying that key and
  appends the new row.  `SELECT ... ORDER BY version DESC LIMIT 1` is a
  deterministic fold keeping the first row of maximal version (SQLite's
  scan order on ties).
* `hashlib.sha256(x).hexdigest()` is modeled as the injective identity on
  its preimage string (a collision-free idealization).
* JSON columns holding string lists (`tags_json`, `sap_objects_json`) are
  modeled as the decoded `List String`; `json.dumps`/`json.loads` round a
  bijection.  Opaque JSON columns stay `String`.
* Python floats (vector scores) are modeled as exact rationals `ℚ`.
* The tiktoken encoder is modeled as the identity tokenizer: one token
  per character, so `count_tokens` is `String.length` and
  `truncate_to_token_limit` is a character prefix.
* External services (OpenAI embedding/generation, the Qdrant client) are
  oracles passed as explicit function arguments; a Python exception is an
  `Except.error` carrying the message.
-/

namespace SapIsu

/-- KB item type enum (`src/assistant/storage/models.py`, `KBItemType`). -/
inductive KBItemType where
  | INCIDENT_PATTERN
  | ROOT_CAUSE
  | RESOLUTION
  | VERIFICATION_STEPS
  | CUSTOMIZING
  | ABAP_TECH_NOTE
  | GLOSSARY
  | RUNBOOK
deriving DecidableEq

/-- `.value` of the Python `str`-enum `KBItemType`. -/
def KBItemType.value : KBItemType → String
  | .INCIDENT_PATTERN => "INCIDENT_PATTERN"
  | .ROOT_CAUSE => "ROOT_CAUSE"
  | .RESOLUTION => "RESOLUTION"
  | .VERIFICATION_STEPS => "VERIFICATION_STEPS"
  | .CUSTOMIZING => "CUSTOMIZING"
  | .ABAP_TECH_NOTE => "ABAP_TECH_NOTE"
  | .GLOSSARY => "GLOSSARY"
  | .RUNBOOK => "RUNBOOK"

/-- KB item status enum (`src/assistant/storage/models.py`, `KBItemStatus`). -/
inductive KBItemStatus where
  | DRAFT
  | APPROVED
  | REJECTED
deriving DecidableEq

/-- `.value` of the Python `str`-enum `KBItemStatus`. -/
def KBItemStatus.value : KBItemStatus → String
  | .DRAFT => "DRAFT"
  | .APPROVED => "APPROVED"
  | .REJECTED => "REJECTED"

/-- One row of the `kb_items` table / the `KBItem` dataclass
(`src/assistant/storage/models.py`).  `type` and `status` are the stored
strings, as in the dataclass; `tags`/`sap_objects` are the decoded JSON
string lists. -/
structure Row where
  kb_id : String
  client_scope : String
  client_code : Option String
  type : String
  title : String
  content_markdown : String
  tags : List String
  sap_objects : List String
  signals_json : String
  sources_json : String
  version : Nat
  status : String
  content_hash : String
  created_at : String
  updated_at : String
deriving DecidableEq

/-- Python `str.lower` on one character (ASCII model). -/
def py_lower_char (c : Char) : Char :=
  if 65 ≤ c.toNat ∧ c.toNat ≤ 90 then Char.ofNat (c.toNat + 32) else c

/-- Python `str.upper` on one character (ASCII model). -/
def py_upper_char (c : Char) : Char :=
  if 97 ≤ c.toNat ∧ c.toNat ≤ 122 then Char.ofNat (c.toNat - 32) else c

/-- Python `str.lower` (ASCII model). -/
def py_lower (s : String) : String :=
  ⟨s.data.map py_lower_char⟩

/-- Python `str.upper` (ASCII model). -/
def py_upper (s : String) : String :=
  ⟨s.data.map py_upper_char⟩

/-- Python `str.strip`: drop leading and trailing whitespace. -/
def py_strip (s : String) : String :=
  ⟨((s.data.dropWhile Char.isWhitespace).reverse.dropWhile Char.isWhitespace).reverse⟩

/-- `KBItemRepository._normalize_title`: Python `title.strip().lower()`
(`strip` removes every kind of edge whitespace). -/
def normalize_title (title : String) : String :=
  py_lower (py_strip title)

/-- SQLite `TRIM(X)`: removes only space characters (0x20) from both
ends — unlike Python `strip`, it leaves tabs and newlines in place. -/
def sql_trim (s : String) : String :=
  ⟨((s.data.dropWhile (· == ' ')).reverse.dropWhile (· == ' ')).reverse⟩

/-- The SQL expression `LOWER(TRIM(title))` of the lookup in
`create_or_update`: SQLite `TRIM` strips only spaces and SQLite `LOWER`
lowercases only ASCII (the ASCII lowering coincides with `py_lower`). -/
def sql_norm_title (s : String) : String :=
  py_lower (sql_trim s)

/-- The two normalizations used on the two sides of the dedup lookup
disagree on titles with tab/newline edges. -/
theorem sql_py_normalize_disagree :
    sql_norm_title "A\t" ≠ normalize_title "A\t" := by
  decide

/-- `KBItemRepository._compute_content_hash`: sha256 of
`f"{item_type}|{title}|{content_markdown}"`, modeled as the preimage. -/
def compute_content_hash (content_markdown title item_type : String) : String :=
  item_type ++ "|" ++ title ++ "|" ++ content_markdown

/-- The SQL client-code filter
`(? IS NULL AND client_code IS NULL OR client_code = ?)` with both
placeholders bound to the same `client_code` argument. -/
def sameClientCode (code rowCode : Option String) : Bool :=
  match code with
  | none => rowCode == none
  | some c => rowCode == some c

/-- Membership in one dedup group: the `WHERE` clause of the lookup in
`create_or_update` (`client_scope = ? AND <code filter> AND type = ? AND
LOWER(TRIM(title)) = ?`).  The stored title is compared through the SQL
normalization `sql_norm_title`, while the bound parameter `ntitle` is
the Python-normalized title — the two differ on titles with tab/newline
edges. -/
def inGroup (scope : String) (code : Option String) (ty ntitle : String) (r : Row) : Bool :=
  r.client_scope == scope && sameClientCode code r.client_code &&
    r.type == ty && sql_norm_title r.title == ntitle

/-- All rows of one dedup group, in table order. -/
def groupRows (scope : String) (code : Option String) (ty ntitle : String)
    (db : List Row) : List Row :=
  db.filter (inGroup scope code ty ntitle)

/-- `ORDER BY version DESC LIMIT 1` over a row list: first row of maximal
version (deterministic model of SQLite's tie order). -/
def pickLatest : List Row → Option Row
  | [] => none
  | r :: rs => some (rs.foldl (fun best x => if best.version < x.version then x else best) r)

/-- The lookup of `create_or_update`: latest version in the group. -/
def latest_in_group (scope : String) (code : Option String) (ty ntitle : String)
    (db : List Row) : Option Row :=
  pickLatest (groupRows scope code ty ntitle db)

/-- `KBItemRepository.get_by_id`: first row with the given primary key. -/
def get_by_id (db : List Row) (kb_id : String) : Option Row :=
  db.find? (fun r => r.kb_id == kb_id)

/-- `INSERT OR REPLACE` keyed on the primary key `kb_id`: delete every
conflicting row, append the new row. -/
def replace_insert (db : List Row) (row : Row) : List Row :=
  db.filter (fun r => r.kb_id != row.kb_id) ++ [row]

/-- The row bound by the single `INSERT OR REPLACE` statement of
`create_or_update`; the branch above it chooses `kb_id`, `version` and
`created_at`. -/
def mkItem (client_scope : String) (client_code : Option String) (item_type : KBItemType)
    (title content_markdown : String) (tags sap_objects : List String)
    (signals sources : String) (status : KBItemStatus)
    (kb_id : String) (version : Nat) (created_at updated_at : String) : Row :=
  { kb_id := kb_id
    client_scope := client_scope
    client_code := client_code
    type := item_type.value
    title := title
    content_markdown := content_markdown
    tags := tags
    sap_objects := sap_objects
    signals_json := signals
    sources_json := sources
    version := version
    status := status.value
    content_hash := compute_content_hash content_markdown title item_type.value
    created_at := created_at
    updated_at := updated_at }

/-- `KBItemRepository.create_or_update`
(`src/assistant/storage/kb_repository.py`, lines 81-173).  `fresh_kb_id`
stands for `str(uuid.uuid4())` and `now` for
`datetime.now(UTC).isoformat()`.  Returns `((item, is_new), new table)`. -/
def create_or_update (db : List Row) (client_scope : String) (client_code : Option String)
    (item_type : KBItemType) (title : String) (content_markdown : String)
    (tags sap_objects : List String) (signals sources : String)
    (status : KBItemStatus) (fresh_kb_id now : String) :
    (Option Row × Bool) × List Row :=
  let normalized_title := normalize_title title
  let content_hash := compute_content_hash content_markdown title item_type.value
  match latest_in_group client_scope client_code item_type.value normalized_title db with
  | some existing =>
      if existing.content_hash = content_hash then
        ((get_by_id db existing.kb_id, false), db)
      else
        let item := mkItem client_scope client_code item_type title content_markdown
          tags sap_objects signals sources status existing.kb_id (existing.version + 1)
          existing.created_at now
        let db2 := replace_insert db item
        ((get_by_id db2 existing.kb_id, false), db2)
  | none =>
      let item := mkItem client_scope client_code item_type title content_markdown
        tags sap_objects signals sources status fresh_kb_id 1 now now
      let db2 := replace_insert db item
      ((get_by_id db2 fresh_kb_id, true), db2)

/-! ### Basic lemmas about the table model -/

theorem find?_filter_ne_append (db : List Row) (row : Row) :
    ((db.filter (fun r => r.kb_id != row.kb_id)) ++ [row]).find?
      (fun r => r.kb_id == row.kb_id) = some row := by
  induction db with
  | nil => simp [List.find?]
  | cons r db ih =>
      by_cases h : r.kb_id = row.kb_id
      · have hb : ¬((r.kb_id != row.kb_id) = true) := by simp [h]
        rw [List.filter_cons, if_neg hb]
        exact ih
      · have hb : (r.kb_id != row.kb_id) = true := by simp [h]
        have hb2 : (r.kb_id == row.kb_id) = false := by simp [h]
        rw [List.filter_cons, if_pos hb, List.cons_append, List.find?_cons, hb2]
        exact ih

theorem get_by_id_replace_insert (db : List Row) (row : Row) :
    get_by_id (replace_insert db row) row.kb_id = some row :=
  find?_filter_ne_append db row

/-! ### Branch characterizations of `create_or_update` -/

theorem create_or_update_fresh (db : List Row) (scope : String) (code : Option String)
    (ty : KBItemType) (title body : String) (tags objs : List String) (sig srcs : String)
    (st : KBItemStatus) (f now : String)
    (h : latest_in_group scope code ty.value (normalize_title title) db = none) :
    create_or_update db scope code ty title body tags objs sig srcs st f now =
      ((some (mkItem scope code ty title body tags objs sig srcs st f 1 now now), true),
        replace_insert db (mkItem scope code ty title body tags objs sig srcs st f 1 now now)) := by
  have hget := get_by_id_replace_insert db (mkItem scope code ty title body tags objs sig srcs st f 1 now now)
  simp only [create_or_update, h]
  rw [show (mkItem scope code ty title body tags objs sig srcs st f 1 now now).kb_id = f from rfl] at hget
  rw [hget]

theorem create_or_update_dedupe (db : List Row) (scope : String) (code : Option String)
    (ty : KBItemType) (title body : String) (tags objs : List String) (sig srcs : String)
    (st : KBItemStatus) (f now : String) (ex : Row)
    (h : latest_in_group scope code ty.value (normalize_title title) db = some ex)
    (hh : ex.content_hash = compute_content_hash body title ty.value) :
    create_or_update db scope code ty title body tags objs sig srcs st f now =
      ((get_by_id db ex.kb_id, false), db) := by
  simp only [create_or_update, h, if_pos hh]

theorem create_or_update_newversion (db : List Row) (scope : String) (code : Option String)
    (ty : KBItemType) (title body : String) (tags objs : List String) (sig srcs : String)
    (st : KBItemStatus) (f now : String) (ex : Row)
    (h : latest_in_group scope code ty.value (normalize_title title) db = some ex)
    (hh : ex.content_hash ≠ compute_content_hash body title ty.value) :
    create_or_update db scope code ty title body tags objs sig srcs st f now =
      ((some (mkItem scope code ty title body tags objs sig srcs st ex.kb_id (ex.version + 1)
          ex.created_at now), false),
        replace_insert db (mkItem scope code ty title body tags objs sig srcs st ex.kb_id
          (ex.version + 1) ex.created_at now)) := by
  have hget := get_by_id_replace_insert db
    (mkItem scope code ty title body tags objs sig srcs st ex.kb_id (ex.version + 1)
      ex.created_at now)
  simp only [create_or_update, h, if_neg hh]
  rw [show (mkItem scope code ty title body tags objs sig srcs st ex.kb_id (ex.version + 1)
      ex.created_at now).kb_id = ex.kb_id from rfl] at hget
  rw [hget]

/-- **C1.** Code-bug demonstration: dedup idempotence fails on the
code.  `create_or_update` binds the lookup parameter to Python
`title.strip().lower()` but the `WHERE` clause compares it against
SQLite `LOWER(TRIM(title))`, and SQLite `TRIM` removes only spaces.  At
title "A\t" (trailing tab) the stored row's SQL-normalized title is
"a\t" while the parameter is "a", so the second identical call misses
the group and creates a second item under a fresh id with version 1 and
`is_new = true`, growing the table — contradicting the claim and the
dedupe rule stated in the repository's own docstring ("same type +
normalized_title + same content_hash -> no duplicate"). -/
theorem dedup_idempotence_violated :
    (create_or_update [] "standard" none .RUNBOOK "A\t" "B" [] [] "" "" .DRAFT "id1" "t1").1 =
      (some (mkItem "standard" none .RUNBOOK "A\t" "B" [] [] "" "" .DRAFT "id1" 1 "t1" "t1"),
        true) ∧
    (create_or_update
        (create_or_update [] "standard" none .RUNBOOK "A\t" "B" [] [] "" "" .DRAFT "id1" "t1").2
        "standard" none .RUNBOOK "A\t" "B" [] [] "" "" .DRAFT "id2" "t2").1 =
      (some (mkItem "standard" none .RUNBOOK "A\t" "B" [] [] "" "" .DRAFT "id2" 1 "t2" "t2"),
        true) ∧
    (mkItem "standard" none .RUNBOOK "A\t" "B" [] [] "" "" .DRAFT "id2" 1 "t2" "t2").kb_id ≠
      (mkItem "standard" none .RUNBOOK "A\t" "B" [] [] "" "" .DRAFT "id1" 1 "t1" "t1").kb_id ∧
    (create_or_update
        (create_or_update [] "standard" none .RUNBOOK "A\t" "B" [] [] "" "" .DRAFT "id1" "t1").2
        "standard" none .RUNBOOK "A\t" "B" [] [] "" "" .DRAFT "id2" "t2").2.length = 2 := by
  decide

/-- **C2.** Code-bug demonstration: version monotonicity fails for the
same Python-strip vs SQLite-TRIM mismatch.  At title "A\t" with two
distinct bodies, the second call misses the group and creates version 1
under a fresh id with `is_new = true` instead of version 2 under the
first call's id. -/
theorem version_monotonicity_violated :
    (create_or_update [] "standard" none .RUNBOOK "A\t" "B1" [] [] "" "" .DRAFT "id1" "t1").1 =
      (some (mkItem "standard" none .RUNBOOK "A\t" "B1" [] [] "" "" .DRAFT "id1" 1 "t1" "t1"),
        true) ∧
    (create_or_update
        (create_or_update [] "standard" none .RUNBOOK "A\t" "B1" [] [] "" "" .DRAFT "id1" "t1").2
        "standard" none .RUNBOOK "A\t" "B2" [] [] "" "" .DRAFT "id2" "t2").1 =
      (some (mkItem "standard" none .RUNBOOK "A\t" "B2" [] [] "" "" .DRAFT "id2" 1 "t2" "t2"),
        true) ∧
    (mkItem "standard" none .RUNBOOK "A\t" "B2" [] [] "" "" .DRAFT "id2" 1 "t2" "t2").version = 1 ∧
    (mkItem "standard" none .RUNBOOK "A\t" "B2" [] [] "" "" .DRAFT "id2" 1 "t2" "t2").kb_id ≠
      (mkItem "standard" none .RUNBOOK "A\t" "B1" [] [] "" "" .DRAFT "id1" 1 "t1" "t1").kb_id := by
  decide

/-- **C3, counterexample.** The claim asserts that after a version bump
the previously stored row remains in the table (one row per version).
Concretely: starting from an empty table, upserting title "T" with body
"A" and then with body "B" leaves a single row (version 2) in the table;
the version-1 row has been replaced (`kb_id` is the primary key and the
write is `INSERT OR REPLACE`), so it does not remain. -/
theorem version_history_not_preserved :
    (create_or_update [] "standard" none .RUNBOOK "T" "A" [] [] "" "" .DRAFT "id1" "t1").1.1 =
      some (mkItem "standard" none .RUNBOOK "T" "A" [] [] "" "" .DRAFT "id1" 1 "t1" "t1") ∧
    (create_or_update
        (create_or_update [] "standard" none .RUNBOOK "T" "A" [] [] "" "" .DRAFT "id1" "t1").2
        "standard" none .RUNBOOK "T" "B" [] [] "" "" .DRAFT "id2" "t2").1.1 =
      some (mkItem "standard" none .RUNBOOK "T" "B" [] [] "" "" .DRAFT "id1" 2 "t1" "t2") ∧
    (create_or_update
        (create_or_update [] "standard" none .RUNBOOK "T" "A" [] [] "" "" .DRAFT "id1" "t1").2
        "standard" none .RUNBOOK "T" "B" [] [] "" "" .DRAFT "id2" "t2").2 =
      [mkItem "standard" none .RUNBOOK "T" "B" [] [] "" "" .DRAFT "id1" 2 "t1" "t2"] ∧
    mkItem "standard" none .RUNBOOK "T" "A" [] [] "" "" .DRAFT "id1" 1 "t1" "t1" ∉
      (create_or_update
        (create_or_update [] "standard" none .RUNBOOK "T" "A" [] [] "" "" .DRAFT "id1" "t1").2
        "standard" none .RUNBOOK "T" "B" [] [] "" "" .DRAFT "id2" "t2").2 := by
  decide

/-- **C3, amended.** When `create_or_update` finds an existing entry in
the same (scope, tenant, type, normalized-title) group with a different
content hash, it writes a row under the same id with
`version = previous + 1` and `is_new = false`; the write is an
`INSERT OR REPLACE` keyed on `kb_id`, so it replaces every previously
stored row with that id — the store keeps only the latest version row
per id, not one row per version. -/
theorem version_bump_replaces (db : List Row) (scope : String) (code : Option String)
    (ty : KBItemType) (title body : String) (tags objs : List String) (sig srcs : String)
    (st : KBItemStatus) (f now : String) (ex : Row)
    (h : latest_in_group scope code ty.value (normalize_title title) db = some ex)
    (hh : ex.content_hash ≠ compute_content_hash body title ty.value) :
    ∃ it : Row,
      (create_or_update db scope code ty title body tags objs sig srcs st f now).1.1 = some it ∧
      it.kb_id = ex.kb_id ∧ it.version = ex.version + 1 ∧
      (create_or_update db scope code ty title body tags objs sig srcs st f now).1.2 = false ∧
      (create_or_update db scope code ty title body tags objs sig srcs st f now).2 =
        db.filter (fun r => r.kb_id != ex.kb_id) ++ [it] ∧
      ∀ r ∈ (create_or_update db scope code ty title body tags objs sig srcs st f now).2,
        r.kb_id = ex.kb_id → r = it := by
  have e1 := create_or_update_newversion db scope code ty title body tags objs sig srcs st
    f now ex h hh
  refine ⟨mkItem scope code ty title body tags objs sig srcs st ex.kb_id (ex.version + 1)
    ex.created_at now, ?_, rfl, rfl, ?_, ?_, ?_⟩
  · rw [e1]
  · rw [e1]
  · rw [e1]; rfl
  · intro r hr hrid
    rw [e1] at hr
    simp only [replace_insert] at hr
    rcases List.mem_append.mp hr with hr | hr
    · have := List.of_mem_filter hr
      simp only [bne_iff_ne, ne_eq] at this
      exact absurd hrid this
    · simpa using hr

/-- Witness for `version_bump_replaces` at a concrete input. -/
theorem version_bump_replaces_witness :
    latest_in_group "standard" none KBItemType.RUNBOOK.value (normalize_title "T")
        [mkItem "standard" none .RUNBOOK "T" "A" [] [] "" "" .DRAFT "id1" 1 "t1" "t1"] =
      some (mkItem "standard" none .RUNBOOK "T" "A" [] [] "" "" .DRAFT "id1" 1 "t1" "t1") ∧
    (mkItem "standard" none .RUNBOOK "T" "A" [] [] "" "" .DRAFT "id1" 1 "t1" "t1").content_hash ≠
      compute_content_hash "B" "T" KBItemType.RUNBOOK.value ∧
    ∃ it : Row,
      (create_or_update [mkItem "standard" none .RUNBOOK "T" "A" [] [] "" "" .DRAFT "id1" 1 "t1" "t1"]
        "standard" none .RUNBOOK "T" "B" [] [] "" "" .DRAFT "id2" "t2").1.1 = some it ∧
      it.kb_id = (mkItem "standard" none .RUNBOOK "T" "A" [] [] "" "" .DRAFT "id1" 1 "t1" "t1").kb_id ∧
      it.version = (mkItem "standard" none .RUNBOOK "T" "A" [] [] "" "" .DRAFT "id1" 1 "t1" "t1").version + 1 ∧
      (create_or_update [mkItem "standard" none .RUNBOOK "T" "A" [] [] "" "" .DRAFT "id1" 1 "t1" "t1"]
        "standard" none .RUNBOOK "T" "B" [] [] "" "" .DRAFT "id2" "t2").1.2 = false ∧
      (create_or_update [mkItem "standard" none .RUNBOOK "T" "A" [] [] "" "" .DRAFT "id1" 1 "t1" "t1"]
        "standard" none .RUNBOOK "T" "B" [] [] "" "" .DRAFT "id2" "t2").2 =
        [mkItem "standard" none .RUNBOOK "T" "A" [] [] "" "" .DRAFT "id1" 1 "t1" "t1"].filter
          (fun r => r.kb_id != (mkItem "standard" none .RUNBOOK "T" "A" [] [] "" "" .DRAFT "id1" 1 "t1" "t1").kb_id) ++ [it] ∧
      ∀ r ∈ (create_or_update [mkItem "standard" none .RUNBOOK "T" "A" [] [] "" "" .DRAFT "id1" 1 "t1" "t1"]
          "standard" none .RUNBOOK "T" "B" [] [] "" "" .DRAFT "id2" "t2").2,
        r.kb_id = (mkItem "standard" none .RUNBOOK "T" "A" [] [] "" "" .DRAFT "id1" 1 "t1" "t1").kb_id → r = it :=
  ⟨by decide, by decide,
    version_bump_replaces [mkItem "standard" none .RUNBOOK "T" "A" [] [] "" "" .DRAFT "id1" 1 "t1" "t1"]
      "standard" none .RUNBOOK "T" "B" [] [] "" "" .DRAFT "id2" "t2"
      (mkItem "standard" none .RUNBOOK "T" "A" [] [] "" "" .DRAFT "id1" 1 "t1" "t1")
      (by decide) (by decide)⟩

/-! ### `update_fields` (C7) -/

/-- Modelled from the spec: `KBItemRepository.update_fields` is called by
the review router (`src/web/routers/review.py`) and exercised by the
repository tests, but its definition is not present under `src/`.  Per
spec section 4.3 it is a partial field update that recomputes
`content_hash` over the updated (type, title, body) and does not bump
`version` — it mutates the current version row in place (an SQL `UPDATE
... WHERE kb_id = ?`); a lookup of an unknown id returns `none`.
Omitted fields (`none`) are left unchanged, as in the partial-update
test. -/
def update_fields (db : List Row) (kb_id : String)
    (title? content_markdown? : Option String) (tags? sap_objects? : Option (List String))
    (now : String) : Option Row × List Row :=
  match get_by_id db kb_id with
  | none => (none, db)
  | some item =>
      let title := title?.getD item.title
      let content_markdown := content_markdown?.getD item.content_markdown
      let tags := tags?.getD item.tags
      let sap_objects := sap_objects?.getD item.sap_objects
      let updated : Row :=
        { item with
          title := title
          content_markdown := content_markdown
          tags := tags
          sap_objects := sap_objects
          content_hash := compute_content_hash content_markdown title item.type
          updated_at := now }
      (some updated, db.map (fun r => if r.kb_id == kb_id then updated else r))

/-- **C7.** `update_fields(id, ...)` partially updates an item's content
fields, recomputes `content_hash` from the updated (type, title, body),
and leaves `version` unchanged: it mutates the current version row in
place (same table length, all other rows untouched) rather than creating
a new version. -/
theorem update_fields_contract (db : List Row) (kb_id : String)
    (title? content? : Option String) (tags? objs? : Option (List String)) (now : String)
    (item : Row) (h : get_by_id db kb_id = some item) :
    ∃ u : Row,
      (update_fields db kb_id title? content? tags? objs? now).1 = some u ∧
      u.version = item.version ∧
      u.kb_id = item.kb_id ∧
      u.type = item.type ∧
      u.title = title?.getD item.title ∧
      u.content_markdown = content?.getD item.content_markdown ∧
      u.tags = tags?.getD item.tags ∧
      u.sap_objects = objs?.getD item.sap_objects ∧
      u.content_hash =
        compute_content_hash (content?.getD item.content_markdown) (title?.getD item.title)
          item.type ∧
      (update_fields db kb_id title? content? tags? objs? now).2.length = db.length ∧
      ∀ r ∈ db, r.kb_id ≠ kb_id →
        r ∈ (update_fields db kb_id title? content? tags? objs? now).2 := by
  simp only [update_fields, h]
  refine ⟨_, rfl, rfl, rfl, rfl, rfl, rfl, rfl, rfl, rfl, by simp, ?_⟩
  intro r hr hne
  simp only [List.mem_map]
  refine ⟨r, hr, ?_⟩
  simp [hne]

/-- Witness for `update_fields_contract` at a concrete input. -/
theorem update_fields_contract_witness :
    get_by_id [mkItem "standard" none .RUNBOOK "T" "A" [] [] "" "" .DRAFT "id1" 1 "t1" "t1"]
        "id1" = some (mkItem "standard" none .RUNBOOK "T" "A" [] [] "" "" .DRAFT "id1" 1 "t1" "t1") ∧
    ∃ u : Row,
      (update_fields [mkItem "standard" none .RUNBOOK "T" "A" [] [] "" "" .DRAFT "id1" 1 "t1" "t1"]
        "id1" (some "T2") none (some ["x"]) none "t2").1 = some u ∧
      u.version = (mkItem "standard" none .RUNBOOK "T" "A" [] [] "" "" .DRAFT "id1" 1 "t1" "t1").version ∧
      u.kb_id = (mkItem "standard" none .RUNBOOK "T" "A" [] [] "" "" .DRAFT "id1" 1 "t1" "t1").kb_id ∧
      u.type = (mkItem "standard" none .RUNBOOK "T" "A" [] [] "" "" .DRAFT "id1" 1 "t1" "t1").type ∧
      u.title = (some "T2").getD (mkItem "standard" none .RUNBOOK "T" "A" [] [] "" "" .DRAFT "id1" 1 "t1" "t1").title ∧
      u.content_markdown = (none : Option String).getD
        (mkItem "standard" none .RUNBOOK "T" "A" [] [] "" "" .DRAFT "id1" 1 "t1" "t1").content_markdown ∧
      u.tags = (some ["x"]).getD (mkItem "standard" none .RUNBOOK "T" "A" [] [] "" "" .DRAFT "id1" 1 "t1" "t1").tags ∧
      u.sap_objects = (none : Option (List String)).getD
        (mkItem "standard" none .RUNBOOK "T" "A" [] [] "" "" .DRAFT "id1" 1 "t1" "t1").sap_objects ∧
      u.content_hash = compute_content_hash
        ((none : Option String).getD
          (mkItem "standard" none .RUNBOOK "T" "A" [] [] "" "" .DRAFT "id1" 1 "t1" "t1").content_markdown)
        ((some "T2").getD (mkItem "standard" none .RUNBOOK "T" "A" [] [] "" "" .DRAFT "id1" 1 "t1" "t1").title)
        (mkItem "standard" none .RUNBOOK "T" "A" [] [] "" "" .DRAFT "id1" 1 "t1" "t1").type ∧
      (update_fields [mkItem "standard" none .RUNBOOK "T" "A" [] [] "" "" .DRAFT "id1" 1 "t1" "t1"]
        "id1" (some "T2") none (some ["x"]) none "t2").2.length =
        [mkItem "standard" none .RUNBOOK "T" "A" [] [] "" "" .DRAFT "id1" 1 "t1" "t1"].length ∧
      ∀ r ∈ [mkItem "standard" none .RUNBOOK "T" "A" [] [] "" "" .DRAFT "id1" 1 "t1" "t1"],
        r.kb_id ≠ "id1" →
          r ∈ (update_fields [mkItem "standard" none .RUNBOOK "T" "A" [] [] "" "" .DRAFT "id1" 1 "t1" "t1"]
            "id1" (some "T2") none (some ["x"]) none "t2").2 :=
  ⟨by decide,
    update_fields_contract [mkItem "standard" none .RUNBOOK "T" "A" [] [] "" "" .DRAFT "id1" 1 "t1" "t1"]
      "id1" (some "T2") none (some ["x"]) none "t2"
      (mkItem "standard" none .RUNBOOK "T" "A" [] [] "" "" .DRAFT "id1" 1 "t1" "t1") (by decide)⟩

/-! ### Synthesis pipeline (`src/assistant/ingestion/synthesis.py`, C5) -/

/-- Parsed JSON values (the result of `json.loads`). -/
inductive Json where
  | null
  | bool (b : Bool)
  | num (n : Int)
  | str (s : String)
  | arr (items : List Json)
  | obj (fields : List (String × Json))

/-- Dictionary field lookup (`field in item` / `item[field]`). -/
def jsonGet (fields : List (String × Json)) (k : String) : Option Json :=
  (fields.find? (fun p => p.1 == k)).map Prod.snd

/-- `VALID_TYPES`: the `.value` strings of `KBItemType`. -/
def VALID_TYPES : List String :=
  ["INCIDENT_PATTERN", "ROOT_CAUSE", "RESOLUTION", "VERIFICATION_STEPS",
   "CUSTOMIZING", "ABAP_TECH_NOTE", "GLOSSARY", "RUNBOOK"]

/-- `item["type"] not in VALID_TYPES` (a non-string value is never in a
set of strings). -/
def isValidType : Json → Bool
  | .str s => VALID_TYPES.contains s
  | _ => false

/-- `isinstance(v, str) and v.strip()` (truthiness of the stripped
string). -/
def isNonEmptyStr : Json → Bool
  | .str s => py_strip s != ""
  | _ => false

/-- `isinstance(v, list)`. -/
def isList : Json → Bool
  | .arr _ => true
  | _ => false

/-- `all(isinstance(x, str) for x in v)` over an array. -/
def allStrings : Json → Bool
  | .arr items => items.all (fun v => match v with | .str _ => true | _ => false)
  | _ => false

/-- The per-item checks of `validate_synthesis_output`, in source order.
Message rendering detail: quote characters and the Python `set` repr of
`VALID_TYPES` (whose order is process-dependent) are elided from the
messages; the claims do not depend on message text. -/
def validateItem (i : Nat) (item : Json) : List String :=
  let pre := "kb_items[" ++ toString i ++ "]"
  match item with
  | .obj fields =>
      (["type", "title", "content_markdown", "tags", "sap_objects", "signals"].filterMap
        (fun f => if (jsonGet fields f).isNone then
            some (pre ++ ": missing required field " ++ f) else none)) ++
      (match jsonGet fields "type" with
        | some v => if isValidType v then [] else
            [pre ++ ".type: invalid value, must be one of VALID_TYPES"]
        | none => []) ++
      (["title", "content_markdown"].filterMap
        (fun f => match jsonGet fields f with
          | some v => if isNonEmptyStr v then none else
              some (pre ++ "." ++ f ++ ": must be a non-empty string")
          | none => none)) ++
      (["tags", "sap_objects"].filterMap
        (fun f => match jsonGet fields f with
          | some v =>
              if isList v then
                if allStrings v then none else some (pre ++ "." ++ f ++ ": all items must be strings")
              else some (pre ++ "." ++ f ++ ": must be an array")
          | none => none)) ++
      (match jsonGet fields "signals" with
        | some v => match v with
          | .obj _ => []
          | _ => [pre ++ ".signals: must be an object"]
        | none => [])
  | _ => [pre ++ ": must be an object"]

/-- The enumerate loop of `validate_synthesis_output`. -/
def validateItems (i : Nat) : List Json → List String
  | [] => []
  | item :: rest => validateItem i item ++ validateItems (i + 1) rest

/-- `validate_synthesis_output` (`src/assistant/ingestion/synthesis.py`,
lines 32-87): field-level validation errors, empty iff valid. -/
def validate_synthesis_output (data : Json) : List String :=
  match data with
  | .obj fields =>
      match jsonGet fields "kb_items" with
      | none => ["Missing required field: kb_items"]
      | some (.arr items) =>
          if items.length = 0 then ["kb_items must be non-empty"]
          else validateItems 0 items
      | some _ => ["kb_items must be an array"]
  | _ => ["Output must be a JSON object"]

/-- Outcome of one model call seen by `synthesize`: the API raised, the
returned text failed `json.loads`, or it parsed to a JSON value. -/
inductive CallOutcome where
  | apiError (msg : String)
  | badJson (msg : String)
  | output (data : Json)

/-- The `last_errors` recorded for a failed attempt, matching the
`except` arms and the validation branch of `synthesize`. -/
def attemptErrors : CallOutcome → List String
  | .apiError m => ["API error: " ++ m]
  | .badJson m => ["Invalid JSON: " ++ m]
  | .output d => validate_synthesis_output d

/-- An attempt succeeds iff it parsed and validated with no errors. -/
def attemptValid : CallOutcome → Option Json
  | .output d => if validate_synthesis_output d = [] then some d else none
  | _ => none

/-- The retry loop of `SynthesisPipeline.synthesize`
(`src/assistant/ingestion/synthesis.py`, lines 109-151): `fuel` is the
remaining iterations of `for attempt in range(1 + max_retries)`, `idx`
the index of the next model call.  Returns the result (`SynthesisError`
modeled as `.error` carrying `last_errors`) and the number of model
calls made. -/
def synthesizeGo (oracle : Nat → CallOutcome) (idx : Nat) (lastErrors : List String) :
    Nat → Except (List String) Json × Nat
  | 0 => (.error lastErrors, 0)
  | fuel + 1 =>
      match attemptValid (oracle idx) with
      | some d => (.ok d, 1)
      | none =>
          let r := synthesizeGo oracle (idx + 1) (attemptErrors (oracle idx)) fuel
          (r.1, r.2 + 1)

/-- `SynthesisPipeline.synthesize(extracted_text, max_retries)`: the
model call on attempt `k` is `oracle k`. -/
def synthesize (oracle : Nat → CallOutcome) (max_retries : Nat) :
    Except (List String) Json × Nat :=
  synthesizeGo oracle 0 [] (1 + max_retries)

theorem synthesizeGo_succ_fail (oracle : Nat → CallOutcome) (idx : Nat) (last : List String)
    (fuel : Nat) (h : attemptValid (oracle idx) = none) :
    synthesizeGo oracle idx last (fuel + 1) =
      ((synthesizeGo oracle (idx + 1) (attemptErrors (oracle idx)) fuel).1,
       (synthesizeGo oracle (idx + 1) (attemptErrors (oracle idx)) fuel).2 + 1) := by
  simp only [synthesizeGo, h]

theorem synthesizeGo_succ_valid (oracle : Nat → CallOutcome) (idx : Nat) (last : List String)
    (fuel : Nat) (d : Json) (h : attemptValid (oracle idx) = some d) :
    synthesizeGo oracle idx last (fuel + 1) = (.ok d, 1) := by
  simp only [synthesizeGo, h]

theorem synthesizeGo_all_fail (oracle : Nat → CallOutcome) :
    ∀ (fuel idx : Nat) (last : List String), 0 < fuel →
      (∀ k, idx ≤ k → k < idx + fuel → attemptValid (oracle k) = none) →
      synthesizeGo oracle idx last fuel =
        (.error (attemptErrors (oracle (idx + fuel - 1))), fuel) := by
  intro fuel
  induction fuel with
  | zero => intro idx last h; omega
  | succ f ih =>
      intro idx last _ hfail
      have h0 : attemptValid (oracle idx) = none :=
        hfail idx (le_refl idx) (by omega)
      cases f with
      | zero =>
          rw [synthesizeGo_succ_fail oracle idx last 0 h0]
          simp [synthesizeGo]
      | succ g =>
          have hrec := ih (idx + 1) (attemptErrors (oracle idx)) (by omega)
            (fun k hk1 hk2 => hfail k (by omega) (by omega))
          rw [synthesizeGo_succ_fail oracle idx last (g + 1) h0, hrec]
          have hidx : idx + 1 + (g + 1) - 1 = idx + (g + 1 + 1) - 1 := by omega
          rw [hidx]

theorem synthesizeGo_first_valid (oracle : Nat → CallOutcome) :
    ∀ (j fuel idx : Nat) (last : List String) (d : Json), j < fuel →
      (∀ k < j, attemptValid (oracle (idx + k)) = none) →
      attemptValid (oracle (idx + j)) = some d →
      synthesizeGo oracle idx last fuel = (.ok d, j + 1) := by
  intro j
  induction j with
  | zero =>
      intro fuel idx last d hj _ hvalid
      cases fuel with
      | zero => omega
      | succ f =>
          exact synthesizeGo_succ_valid oracle idx last f d (by simpa using hvalid)
  | succ j ih =>
      intro fuel idx last d hj hfail hvalid
      cases fuel with
      | zero => omega
      | succ f =>
          have h0 : attemptValid (oracle idx) = none := by
            simpa using hfail 0 (Nat.succ_pos j)
          have hrec := ih f (idx + 1) (attemptErrors (oracle idx)) d (by omega)
            (fun k hk => by
              have := hfail (k + 1) (by omega)
              simpa [Nat.add_assoc, Nat.add_comm 1 k] using this)
            (by
              have h1 : idx + 1 + j = idx + (j + 1) := by omega
              rw [h1]
              exact hvalid)
          rw [synthesizeGo_succ_fail oracle idx last f h0, hrec]

/-- **C5.** Synthesis retry bound: if every one of the `1 + max_retries`
model calls fails (raises, fails JSON parsing, or fails validation),
`synthesize` makes exactly `1 + max_retries` calls and raises
`SynthesisError` carrying the last attempt's errors; if attempt `j` is
the first valid one, `synthesize` returns its output after exactly
`j + 1` calls. -/
theorem synthesis_retry_bound (oracle : Nat → CallOutcome) (max_retries : Nat) :
    ((∀ k < 1 + max_retries, attemptValid (oracle k) = none) →
      synthesize oracle max_retries =
        (.error (attemptErrors (oracle max_retries)), 1 + max_retries)) ∧
    (∀ j d, j < 1 + max_retries →
      (∀ k < j, attemptValid (oracle k) = none) →
      attemptValid (oracle j) = some d →
      synthesize oracle max_retries = (.ok d, j + 1)) := by
  constructor
  · intro hfail
    unfold synthesize
    have hidx : 0 + (1 + max_retries) - 1 = max_retries := by omega
    rw [synthesizeGo_all_fail oracle (1 + max_retries) 0 [] (by omega)
      (fun k hk1 hk2 => hfail k (by omega)), hidx]
  · intro j d hj hfail hvalid
    unfold synthesize
    exact synthesizeGo_first_valid oracle j (1 + max_retries) 0 [] d hj
      (fun k hk => by simpa using hfail k hk)
      (by simpa using hvalid)

/-- Witness for `synthesis_retry_bound`: a model that always returns
invalid JSON exhausts both attempts; a model that succeeds on its second
attempt stops after two calls. -/
theorem synthesis_retry_bound_witness :
    ((∀ k < 1 + 1, attemptValid ((fun _ => CallOutcome.badJson "x") k) = none) ∧
      synthesize (fun _ => CallOutcome.badJson "x") 1 =
        (.error (attemptErrors ((fun _ => CallOutcome.badJson "x") 1)), 1 + 1)) ∧
    ((1 : Nat) < 1 + 1 ∧
      (∀ k < 1, attemptValid ((fun k => if k = 0 then CallOutcome.badJson "x"
        else CallOutcome.output (Json.obj [("kb_items", Json.arr [Json.obj
          [("type", Json.str "RUNBOOK"), ("title", Json.str "T"),
           ("content_markdown", Json.str "B"), ("tags", Json.arr []),
           ("sap_objects", Json.arr []), ("signals", Json.obj [])]])])) k) = none) ∧
      attemptValid ((fun k => if k = 0 then CallOutcome.badJson "x"
        else CallOutcome.output (Json.obj [("kb_items", Json.arr [Json.obj
          [("type", Json.str "RUNBOOK"), ("title", Json.str "T"),
           ("content_markdown", Json.str "B"), ("tags", Json.arr []),
           ("sap_objects", Json.arr []), ("signals", Json.obj [])]])])) 1) =
        some (Json.obj [("kb_items", Json.arr [Json.obj
          [("type", Json.str "RUNBOOK"), ("title", Json.str "T"),
           ("content_markdown", Json.str "B"), ("tags", Json.arr []),
           ("sap_objects", Json.arr []), ("signals", Json.obj [])]])]) ∧
      synthesize (fun k => if k = 0 then CallOutcome.badJson "x"
        else CallOutcome.output (Json.obj [("kb_items", Json.arr [Json.obj
          [("type", Json.str "RUNBOOK"), ("title", Json.str "T"),
           ("content_markdown", Json.str "B"), ("tags", Json.arr []),
           ("sap_objects", Json.arr []), ("signals", Json.obj [])]])])) 1 =
        (.ok (Json.obj [("kb_items", Json.arr [Json.obj
          [("type", Json.str "RUNBOOK"), ("title", Json.str "T"),
           ("content_markdown", Json.str "B"), ("tags", Json.arr []),
           ("sap_objects", Json.arr []), ("signals", Json.obj [])]])]), 1 + 1)) := by
  constructor
  · refine ⟨fun k _ => rfl, ?_⟩
    exact (synthesis_retry_bound (fun _ => CallOutcome.badJson "x") 1).1 (fun k _ => rfl)
  · refine ⟨by omega, fun k hk => ?_, rfl, ?_⟩
    · interval_cases k
      rfl
    · exact (synthesis_retry_bound (fun k => if k = 0 then CallOutcome.badJson "x"
        else CallOutcome.output (Json.obj [("kb_items", Json.arr [Json.obj
          [("type", Json.str "RUNBOOK"), ("title", Json.str "T"),
           ("content_markdown", Json.str "B"), ("tags", Json.arr []),
           ("sap_objects", Json.arr []), ("signals", Json.obj [])]])])) 1).2 1 _ (by omega)
        (fun k hk => by interval_cases k; rfl) rfl

/-! ### Stable descending sort (model of Python `list.sort(key=..., reverse=True)`) -/

/-- Insert `x` (originally earlier than everything in the list) before
the first element whose key does not exceed `x`'s: ties keep the
original order, as Python's stable sort does. -/
def insertByDesc {α : Type} (key : α → ℚ) (x : α) : List α → List α
  | [] => [x]
  | y :: ys => if key y ≤ key x then x :: y :: ys else y :: insertByDesc key x ys

/-- Stable sort by key, descending. -/
def sortByDesc {α : Type} (key : α → ℚ) : List α → List α
  | [] => []
  | x :: xs => insertByDesc key x (sortByDesc key xs)

theorem insertByDesc_perm {α : Type} (key : α → ℚ) (x : α) (l : List α) :
    (insertByDesc key x l).Perm (x :: l) := by
  induction l with
  | nil => exact List.Perm.refl _
  | cons y ys ih =>
      by_cases h : key y ≤ key x
      · rw [insertByDesc, if_pos h]
      · rw [insertByDesc, if_neg h]
        exact (ih.cons y).trans (List.Perm.swap x y ys)

theorem sortByDesc_perm {α : Type} (key : α → ℚ) (l : List α) :
    (sortByDesc key l).Perm l := by
  induction l with
  | nil => exact List.Perm.refl _
  | cons x xs ih =>
      exact (insertByDesc_perm key x (sortByDesc key xs)).trans (ih.cons x)

theorem insertByDesc_sorted {α : Type} (key : α → ℚ) (x : α) (l : List α)
    (h : List.Sorted (fun a b => key b ≤ key a) l) :
    List.Sorted (fun a b => key b ≤ key a) (insertByDesc key x l) := by
  induction l with
  | nil => simp [insertByDesc]
  | cons y ys ih =>
      rw [List.sorted_cons] at h
      by_cases hxy : key y ≤ key x
      · rw [insertByDesc, if_pos hxy, List.sorted_cons]
        refine ⟨?_, List.sorted_cons.mpr h⟩
        intro b hb
        rcases List.mem_cons.mp hb with rfl | hb
        · exact hxy
        · exact le_trans (h.1 b hb) hxy
      · rw [insertByDesc, if_neg hxy, List.sorted_cons]
        refine ⟨?_, ih h.2⟩
        intro b hb
        have hb2 : b ∈ x :: ys := (insertByDesc_perm key x ys).mem_iff.mp hb
        rcases List.mem_cons.mp hb2 with rfl | hb2
        · exact le_of_lt (lt_of_not_le hxy)
        · exact h.1 b hb2

theorem sortByDesc_sorted {α : Type} (key : α → ℚ) (l : List α) :
    List.Sorted (fun a b => key b ≤ key a) (sortByDesc key l) := by
  induction l with
  | nil => simp [sortByDesc]
  | cons x xs ih => exact insertByDesc_sorted key x (sortByDesc key xs) ih

theorem mem_sortByDesc {α : Type} (key : α → ℚ) {l : List α} {x : α} :
    x ∈ sortByDesc key l ↔ x ∈ l :=
  (sortByDesc_perm key l).mem_iff

/-! ### Vector index router (`src/assistant/retrieval/qdrant_service.py`) -/

/-- The point payload built by `upsert_kb_item` (PLAN.md section 4.4). -/
structure Payload where
  kb_id : String
  type : String
  title : String
  tags : List String
  sap_objects : List String
  client_scope : String
  client_code : Option String
  version : Nat
  updated_at : String
deriving DecidableEq

/-- One stored point of a Qdrant collection. -/
structure Point where
  id : String
  vec : List ℚ
  payload : Payload
deriving DecidableEq

/-- One Qdrant collection: configured vector size and stored points. -/
structure Collection where
  size : Nat
  points : List Point
deriving DecidableEq

/-- The state of the external vector store: named collections. -/
abbrev VState := List (String × Collection)

/-- Look a collection up by name. -/
def lookupColl (σ : VState) (name : String) : Option Collection :=
  (σ.find? (fun p => p.1 == name)).map Prod.snd

/-- `VECTOR_SIZE = 3072` (text-embedding-3-large). -/
def VECTOR_SIZE : Nat := 3072

/-- `QdrantService._get_collection_name`: `kb_standard` for the standard
scope, `kb_<CODE upper>` for the client scope (missing/empty code and
unknown scopes raise `ValueError`). -/
def get_collection_name (client_scope : String) (client_code : Option String) :
    Except String String :=
  if client_scope = "standard" then .ok "kb_standard"
  else if client_scope = "client" then
    match client_code with
    | some cc =>
        if cc = "" then .error "client_code required for client scope"
        else .ok ("kb_" ++ py_upper cc)
    | none => .error "client_code required for client scope"
  else .error ("Invalid client_scope: " ++ client_scope)

/-- `QdrantService.ensure_collection_exists`: create the collection when
absent; when present, fail on a vector-size mismatch.  Python's
`if existing_size and existing_size != self.VECTOR_SIZE` treats a falsy
(zero/absent) size as compatible. -/
def ensure_collection_exists (σ : VState) (client_scope : String)
    (client_code : Option String) : Except String VState :=
  match get_collection_name client_scope client_code with
  | .error e => .error e
  | .ok collection_name =>
      match lookupColl σ collection_name with
      | some c =>
          if c.size ≠ 0 ∧ c.size ≠ VECTOR_SIZE then
            .error ("Collection " ++ collection_name ++ " vector size mismatch")
          else .ok σ
      | none => .ok (σ ++ [(collection_name, ⟨VECTOR_SIZE, []⟩)])

/-- The `PointStruct` built by `upsert_kb_item`: point id = `kb_id`,
vector = embedding, payload per PLAN.md section 4.4. -/
def mkPoint (item : Row) (embedding : List ℚ) : Point :=
  { id := item.kb_id
    vec := embedding
    payload :=
      { kb_id := item.kb_id
        type := item.type
        title := item.title
        tags := item.tags
        sap_objects := item.sap_objects
        client_scope := item.client_scope
        client_code := item.client_code
        version := item.version
        updated_at := item.updated_at } }

/-- A Qdrant point upsert inside one collection: replaces the point with
the same id, keeps the rest. -/
def bumpPoints (pt : Point) (c : Collection) : Collection :=
  ⟨c.size, c.points.filter (fun q => q.id != pt.id) ++ [pt]⟩

/-- `client.upsert(collection_name, points=[point])`: upsert by point id
in the named collection. -/
def upsertPoint (σ : VState) (name : String) (pt : Point) : VState :=
  σ.map (fun p => if p.1 == name then (p.1, bumpPoints pt p.2) else p)

/-- `QdrantService.upsert_kb_item`
(`src/assistant/retrieval/qdrant_service.py`, lines 97-144): requires
`status == "APPROVED"` and a 3072-dimension embedding, ensures the
owning collection, then upserts the point keyed by the item id.  An
`.error` result models a raised `ValueError`; the raise happens before
any client write, so the store is untouched in every error case. -/
def upsert_kb_item (σ : VState) (kb_item : Row) (embedding : List ℚ) :
    Except String VState :=
  if kb_item.status ≠ "APPROVED" then
    .error ("Only APPROVED items can be indexed, got status: " ++ kb_item.status)
  else if embedding.length ≠ VECTOR_SIZE then
    .error "Embedding must be 3072 dimensions, got other length"
  else
    match get_collection_name kb_item.client_scope kb_item.client_code with
    | .error e => .error e
    | .ok collection_name =>
        match ensure_collection_exists σ kb_item.client_scope kb_item.client_code with
        | .error e => .error e
        | .ok σ2 => .ok (upsertPoint σ2 collection_name (mkPoint kb_item embedding))

/-- Modelled behavior of the external `client.search(collection_name,
query_vector, limit)` followed by the source's payload extraction
`[(hit.payload["kb_id"], hit.score) for hit in results]`: score every
point with the similarity oracle `sim`, return the top `limit` by score
descending. -/
def clientSearch (sim : List ℚ → List ℚ → ℚ) (c : Collection) (query : List ℚ)
    (limit : Nat) : List (String × ℚ) :=
  (sortByDesc Prod.snd (c.points.map (fun p => (p.payload.kb_id, sim query p.vec)))).take limit

/-- The `kb_standard` hits of `QdrantService.search` (queried only when
`include_standard` and the collection exists). -/
def standard_results (σ : VState) (sim : List ℚ → List ℚ → ℚ) (query : List ℚ)
    (limit : Nat) (include_standard : Bool) : List (String × ℚ) :=
  if include_standard then
    match lookupColl σ "kb_standard" with
    | some c => clientSearch sim c query limit
    | none => []
  else []

/-- The tenant hits of `QdrantService.search` (queried only when
`client_scope == "client"` and `client_code` is truthy). -/
def client_results (σ : VState) (sim : List ℚ → List ℚ → ℚ) (query : List ℚ)
    (client_scope : String) (client_code : Option String) (limit : Nat) :
    List (String × ℚ) :=
  if client_scope = "client" then
    match client_code with
    | some cc =>
        if cc = "" then []
        else
          match lookupColl σ ("kb_" ++ py_upper cc) with
          | some c => clientSearch sim c query limit
          | none => []
    | none => []
  else []

/-- `QdrantService.search`
(`src/assistant/retrieval/qdrant_service.py`, lines 146-206): dimension
check, standard + tenant hits, union sorted by score descending,
truncated to `limit`. -/
def qsearch (σ : VState) (sim : List ℚ → List ℚ → ℚ) (query : List ℚ)
    (client_scope : String) (client_code : Option String) (limit : Nat)
    (include_standard : Bool) : Except String (List (String × ℚ)) :=
  if query.length ≠ VECTOR_SIZE then .error "Embedding must be 3072 dimensions"
  else
    .ok ((sortByDesc Prod.snd
      (standard_results σ sim query limit include_standard ++
        client_results σ sim query client_scope client_code limit)).take limit)

/-- The name of the collection owned by the explicitly named tenant
(the only tenant collection `qsearch` may read). -/
def tenant_collection_name (client_code : Option String) : String :=
  match client_code with
  | some cc => "kb_" ++ py_upper cc
  | none => ""

/-! ### Lookup lemmas for the vector store -/

theorem lookupColl_append_self (σ : VState) (name : String) (c : Collection)
    (h : lookupColl σ name = none) :
    lookupColl (σ ++ [(name, c)]) name = some c := by
  induction σ with
  | nil => simp [lookupColl, List.find?]
  | cons p σ ih =>
      by_cases hp : p.1 = name
      · exfalso
        have hb : (p.1 == name) = true := by simp [hp]
        simp [lookupColl, List.find?_cons, hb] at h
      · have hb : (p.1 == name) = false := by simp [hp]
        simp only [lookupColl, List.cons_append, List.find?_cons, hb] at h ⊢
        exact ih h

theorem lookupColl_append_other (σ : VState) (name nm : String) (c : Collection)
    (h : nm ≠ name) :
    lookupColl (σ ++ [(name, c)]) nm = lookupColl σ nm := by
  induction σ with
  | nil =>
      have hb : (name == nm) = false := beq_eq_false_iff_ne.mpr (Ne.symm h)
      simp [lookupColl, List.find?, hb]
  | cons p σ ih =>
      cases hb : (p.1 == nm) with
      | true => simp only [lookupColl, List.cons_append, List.find?_cons, hb]
      | false =>
          simp only [lookupColl, List.cons_append, List.find?_cons, hb] at ih ⊢
          exact ih

theorem lookupColl_upsertPoint_self (σ : VState) (name : String) (pt : Point) :
    lookupColl (upsertPoint σ name pt) name = (lookupColl σ name).map (bumpPoints pt) := by
  induction σ with
  | nil => rfl
  | cons p σ ih =>
      simp only [upsertPoint, List.map_cons] at ih ⊢
      by_cases hp : p.1 = name
      · have hb : (p.1 == name) = true := by simp [hp]
        rw [if_pos hb]
        simp only [lookupColl, List.find?_cons, hb]
        rfl
      · have hb : (p.1 == name) = false := by simp [hp]
        rw [if_neg (by simp [hb])]
        simp only [lookupColl, List.find?_cons, hb] at ih ⊢
        exact ih

theorem lookupColl_upsertPoint_other (σ : VState) (name nm : String) (pt : Point)
    (h : nm ≠ name) :
    lookupColl (upsertPoint σ name pt) nm = lookupColl σ nm := by
  induction σ with
  | nil => rfl
  | cons p σ ih =>
      simp only [upsertPoint, List.map_cons] at ih ⊢
      by_cases hp : p.1 = name
      · have hb : (p.1 == name) = true := by simp [hp]
        have hb2 : (p.1 == nm) = false := by
          refine beq_eq_false_iff_ne.mpr ?_
          rw [hp]
          exact Ne.symm h
        rw [if_pos hb]
        simp only [lookupColl, List.find?_cons, hb2] at ih ⊢
        exact ih
      · have hb : (p.1 == name) = false := by simp [hp]
        rw [if_neg (by simp [hb])]
        cases hb2 : (p.1 == nm) with
        | true => simp only [lookupColl, List.find?_cons, hb2]
        | false =>
            simp only [lookupColl, List.find?_cons, hb2] at ih ⊢
            exact ih

theorem ensure_collection_ok (σ : VState) (client_scope : String)
    (client_code : Option String) (name : String)
    (hname : get_collection_name client_scope client_code = .ok name)
    (hcompat : ∀ c, lookupColl σ name = some c → c.size = 0 ∨ c.size = VECTOR_SIZE) :
    (ensure_collection_exists σ client_scope client_code = .ok σ ∧
      ∃ c, lookupColl σ name = some c) ∨
    (ensure_collection_exists σ client_scope client_code =
      .ok (σ ++ [(name, ⟨VECTOR_SIZE, []⟩)]) ∧ lookupColl σ name = none) := by
  cases hc : lookupColl σ name with
  | none =>
      right
      refine ⟨?_, rfl⟩
      simp only [ensure_collection_exists, hname, hc]
  | some c =>
      left
      have hno : ¬(c.size ≠ 0 ∧ c.size ≠ VECTOR_SIZE) := by
        rcases hcompat c hc with h | h <;> simp [h]
      refine ⟨?_, c, rfl⟩
      simp only [ensure_collection_exists, hname, hc, if_neg hno]

/-- **C8.** Vector index approval and dimension gate: `upsert_kb_item`
raises the not-approved error whenever the item is not `APPROVED`,
raises the dimension error whenever the embedding length differs from
3072, and in either error case writes nothing (the raise precedes every
client call, so the returned value is an `.error` and no state is
produced); when neither condition holds (and the item's owning
collection resolves and is dimension-compatible), it upserts the point
keyed by the item id into the owning collection, leaving every other
collection unchanged. -/
theorem upsert_kb_item_gate (σ : VState) (item : Row) (embedding : List ℚ) :
    (item.status ≠ "APPROVED" →
      upsert_kb_item σ item embedding =
        .error ("Only APPROVED items can be indexed, got status: " ++ item.status)) ∧
    (item.status = "APPROVED" → embedding.length ≠ VECTOR_SIZE →
      upsert_kb_item σ item embedding =
        .error "Embedding must be 3072 dimensions, got other length") ∧
    (∀ name, item.status = "APPROVED" → embedding.length = VECTOR_SIZE →
      get_collection_name item.client_scope item.client_code = .ok name →
      (∀ c, lookupColl σ name = some c → c.size = 0 ∨ c.size = VECTOR_SIZE) →
      ∃ σ2 c2,
        upsert_kb_item σ item embedding = .ok σ2 ∧
        lookupColl σ2 name = some c2 ∧
        mkPoint item embedding ∈ c2.points ∧
        (∀ q ∈ c2.points, q.id = item.kb_id → q = mkPoint item embedding) ∧
        ∀ nm, nm ≠ name → lookupColl σ2 nm = lookupColl σ nm) := by
  refine ⟨?_, ?_, ?_⟩
  · intro h
    rw [upsert_kb_item, if_pos h]
  · intro h hd
    rw [upsert_kb_item, if_neg (by simp [h]), if_pos hd]
  · intro name hst hd hname hcompat
    have hrun : upsert_kb_item σ item embedding =
        match ensure_collection_exists σ item.client_scope item.client_code with
        | .error e => .error e
        | .ok σ2 => .ok (upsertPoint σ2 name (mkPoint item embedding)) := by
      rw [upsert_kb_item, if_neg (by simp [hst]), if_neg (by simp [hd]), hname]
    rcases ensure_collection_ok σ item.client_scope item.client_code name hname hcompat with
      ⟨he, c0, hc0⟩ | ⟨he, hc0⟩
    · refine ⟨upsertPoint σ name (mkPoint item embedding), bumpPoints (mkPoint item embedding) c0,
        ?_, ?_, ?_, ?_, ?_⟩
      · rw [hrun, he]
      · rw [lookupColl_upsertPoint_self, hc0]
        rfl
      · exact List.mem_append.mpr (Or.inr (List.mem_singleton.mpr rfl))
      · intro q hq hid
        rcases List.mem_append.mp hq with hq | hq
        · have := List.of_mem_filter hq
          simp only [bne_iff_ne, ne_eq] at this
          exact absurd hid this
        · exact List.mem_singleton.mp hq
      · intro nm hnm
        exact lookupColl_upsertPoint_other σ name nm (mkPoint item embedding) hnm
    · refine ⟨upsertPoint (σ ++ [(name, ⟨VECTOR_SIZE, []⟩)]) name (mkPoint item embedding),
        bumpPoints (mkPoint item embedding) ⟨VECTOR_SIZE, []⟩, ?_, ?_, ?_, ?_, ?_⟩
      · rw [hrun, he]
      · rw [lookupColl_upsertPoint_self, lookupColl_append_self σ name _ hc0]
        rfl
      · exact List.mem_append.mpr (Or.inr (List.mem_singleton.mpr rfl))
      · intro q hq hid
        rcases List.mem_append.mp hq with hq | hq
        · have := List.of_mem_filter hq
          simp only [bne_iff_ne, ne_eq] at this
          exact absurd hid this
        · exact List.mem_singleton.mp hq
      · intro nm hnm
        rw [lookupColl_upsertPoint_other _ name nm _ hnm,
          lookupColl_append_other σ name nm _ hnm]

/-- Witness for `upsert_kb_item_gate`: a rejected item is refused, a
wrong-length embedding is refused, and an approved item with a
3072-dimension embedding is inserted into `kb_standard` of an empty
store. -/
theorem upsert_kb_item_gate_witness :
    ((mkItem "standard" none .RUNBOOK "T" "A" [] [] "" "" .DRAFT "id1" 1 "t" "t").status ≠ "APPROVED" →
      upsert_kb_item [] (mkItem "standard" none .RUNBOOK "T" "A" [] [] "" "" .DRAFT "id1" 1 "t" "t") [] =
        .error ("Only APPROVED items can be indexed, got status: " ++
          (mkItem "standard" none .RUNBOOK "T" "A" [] [] "" "" .DRAFT "id1" 1 "t" "t").status)) ∧
    (mkItem "standard" none .RUNBOOK "T" "A" [] [] "" "" .DRAFT "id1" 1 "t" "t").status ≠ "APPROVED" ∧
    ((mkItem "standard" none .RUNBOOK "T" "A" [] [] "" "" .APPROVED "id1" 1 "t" "t").status = "APPROVED" →
      ([] : List ℚ).length ≠ VECTOR_SIZE →
      upsert_kb_item [] (mkItem "standard" none .RUNBOOK "T" "A" [] [] "" "" .APPROVED "id1" 1 "t" "t") [] =
        .error "Embedding must be 3072 dimensions, got other length") ∧
    (∃ σ2 c2,
      upsert_kb_item [] (mkItem "standard" none .RUNBOOK "T" "A" [] [] "" "" .APPROVED "id1" 1 "t" "t")
          (List.replicate VECTOR_SIZE (0 : ℚ)) = .ok σ2 ∧
      lookupColl σ2 "kb_standard" = some c2 ∧
      mkPoint (mkItem "standard" none .RUNBOOK "T" "A" [] [] "" "" .APPROVED "id1" 1 "t" "t")
          (List.replicate VECTOR_SIZE (0 : ℚ)) ∈ c2.points ∧
      (∀ q ∈ c2.points,
        q.id = (mkItem "standard" none .RUNBOOK "T" "A" [] [] "" "" .APPROVED "id1" 1 "t" "t").kb_id →
        q = mkPoint (mkItem "standard" none .RUNBOOK "T" "A" [] [] "" "" .APPROVED "id1" 1 "t" "t")
          (List.replicate VECTOR_SIZE (0 : ℚ))) ∧
      ∀ nm, nm ≠ "kb_standard" → lookupColl σ2 nm = lookupColl [] nm) := by
  refine ⟨?_, ?_, ?_, ?_⟩
  · exact (upsert_kb_item_gate [] (mkItem "standard" none .RUNBOOK "T" "A" [] [] "" "" .DRAFT "id1" 1 "t" "t") []).1
  · decide
  · exact (upsert_kb_item_gate [] (mkItem "standard" none .RUNBOOK "T" "A" [] [] "" "" .APPROVED "id1" 1 "t" "t") []).2.1
  · exact (upsert_kb_item_gate []
      (mkItem "standard" none .RUNBOOK "T" "A" [] [] "" "" .APPROVED "id1" 1 "t" "t")
      (List.replicate VECTOR_SIZE (0 : ℚ))).2.2 "kb_standard" rfl
      (by rw [List.length_replicate]) rfl (fun c hc => by simp [lookupColl] at hc)

/-- **C9.** Tenant isolation of search (noninterference): `search` reads
only `kb_standard` and the explicitly named tenant's collection — any
two vector-store states agreeing on those two collections yield
identical results — and the returned list is the union of the standard
and tenant hits sorted by score descending, truncated to `limit`. -/
theorem search_tenant_isolation (σ1 σ2 : VState) (sim : List ℚ → List ℚ → ℚ)
    (query : List ℚ) (client_scope : String) (client_code : Option String)
    (limit : Nat) (include_standard : Bool)
    (hstd : lookupColl σ1 "kb_standard" = lookupColl σ2 "kb_standard")
    (hten : lookupColl σ1 (tenant_collection_name client_code) =
      lookupColl σ2 (tenant_collection_name client_code)) :
    qsearch σ1 sim query client_scope client_code limit include_standard =
      qsearch σ2 sim query client_scope client_code limit include_standard ∧
    ∀ out, qsearch σ1 sim query client_scope client_code limit include_standard = .ok out →
      List.Sorted (fun a b => b.2 ≤ a.2) out ∧
      out.length ≤ limit ∧
      ∀ x ∈ out, x ∈ standard_results σ1 sim query limit include_standard ∨
        x ∈ client_results σ1 sim query client_scope client_code limit := by
  have h1 : standard_results σ1 sim query limit include_standard =
      standard_results σ2 sim query limit include_standard := by
    unfold standard_results
    rw [hstd]
  have h2 : client_results σ1 sim query client_scope client_code limit =
      client_results σ2 sim query client_scope client_code limit := by
    unfold client_results
    by_cases hs : client_scope = "client"
    · simp only [hs, if_pos]
      cases client_code with
      | none => rfl
      | some cc =>
          by_cases hc : cc = ""
          · simp [hc]
          · simp only [tenant_collection_name] at hten
            simp only [if_neg hc, hten]
    · simp [hs]
  constructor
  · unfold qsearch
    rw [h1, h2]
  · intro out hout
    unfold qsearch at hout
    by_cases hq : query.length ≠ VECTOR_SIZE
    · rw [if_pos hq] at hout
      cases hout
    · rw [if_neg hq] at hout
      have hout2 : (sortByDesc Prod.snd
          (standard_results σ1 sim query limit include_standard ++
            client_results σ1 sim query client_scope client_code limit)).take limit = out :=
        Except.ok.inj hout
      subst hout2
      refine ⟨?_, ?_, ?_⟩
      · exact (sortByDesc_sorted (α := String × ℚ) Prod.snd _).sublist (List.take_sublist _ _)
      · exact List.length_take_le _ _
      · intro x hx
        have hx2 : x ∈ sortByDesc (α := String × ℚ) Prod.snd _ :=
          (List.take_sublist _ _).subset hx
        exact List.mem_append.mp (mem_sortByDesc Prod.snd |>.mp hx2)

/-- Witness for `search_tenant_isolation`: an empty store and a store
holding only some other tenant's collection agree on `kb_standard` and
on tenant `a`'s collection, so a search scoped to tenant `a` returns the
same (empty) result on both. -/
theorem search_tenant_isolation_witness :
    lookupColl [] "kb_standard" =
      lookupColl [("kb_B", ⟨3072, [⟨"pb", [1], ⟨"pb", "RUNBOOK", "t", [], [], "client",
        some "b", 1, "t"⟩⟩]⟩)] "kb_standard" ∧
    lookupColl [] (tenant_collection_name (some "a")) =
      lookupColl [("kb_B", ⟨3072, [⟨"pb", [1], ⟨"pb", "RUNBOOK", "t", [], [], "client",
        some "b", 1, "t"⟩⟩]⟩)] (tenant_collection_name (some "a")) ∧
    (qsearch [] (fun _ _ => 0) (List.replicate VECTOR_SIZE (0 : ℚ)) "client" (some "a") 8 true =
      qsearch [("kb_B", ⟨3072, [⟨"pb", [1], ⟨"pb", "RUNBOOK", "t", [], [], "client",
        some "b", 1, "t"⟩⟩]⟩)] (fun _ _ => 0) (List.replicate VECTOR_SIZE (0 : ℚ)) "client"
        (some "a") 8 true ∧
    ∀ out, qsearch [] (fun _ _ => 0) (List.replicate VECTOR_SIZE (0 : ℚ)) "client" (some "a") 8
        true = .ok out →
      List.Sorted (fun a b => b.2 ≤ a.2) out ∧
      out.length ≤ 8 ∧
      ∀ x ∈ out, x ∈ standard_results [] (fun _ _ => 0) (List.replicate VECTOR_SIZE (0 : ℚ)) 8
          true ∨
        x ∈ client_results [] (fun _ _ => 0) (List.replicate VECTOR_SIZE (0 : ℚ)) "client"
          (some "a") 8) :=
  ⟨by decide, by decide,
    search_tenant_isolation []
      [("kb_B", ⟨3072, [⟨"pb", [1], ⟨"pb", "RUNBOOK", "t", [], [], "client", some "b", 1, "t"⟩⟩]⟩)]
      (fun _ _ => 0) (List.replicate VECTOR_SIZE (0 : ℚ)) "client" (some "a") 8 true
      (by decide) (by decide)⟩

/-! ### Token utilities (`src/shared/tokens.py`), identity-tokenizer model -/

/-- `count_tokens(text)`: number of tokens, one token per character under
the identity-tokenizer model of tiktoken. -/
def count_tokens (text : String) : Nat :=
  text.length

/-- `truncate_to_token_limit(text, max_tokens)`: return `text` unchanged
when it fits, else decode the first `max_tokens` tokens. -/
def truncate_to_token_limit (text : String) (max_tokens : Nat) : String :=
  if text.length ≤ max_tokens then text else ⟨text.data.take max_tokens⟩

theorem truncate_length_le (text : String) (m : Nat) :
    (truncate_to_token_limit text m).length ≤ m := by
  unfold truncate_to_token_limit
  by_cases h : text.length ≤ m
  · rw [if_pos h]; exact h
  · rw [if_neg h]
    show (text.data.take m).length ≤ m
    simp

/-! ### Chat service (`src/assistant/chat/chat_service.py`) -/

/-- `MAX_CONTEXT_TOKENS = 100_000`. -/
def MAX_CONTEXT_TOKENS : Nat := 100000

/-- `TAG_BOOST = 0.05`. -/
def TAG_BOOST : ℚ := 1 / 20

/-- `SAP_OBJECT_BOOST = 0.05`. -/
def SAP_OBJECT_BOOST : ℚ := 1 / 20

/-- Membership in the regex character class `[A-Za-z0-9_/]`. -/
def isTokenChar (c : Char) : Bool :=
  decide (65 ≤ c.toNat ∧ c.toNat ≤ 90) || decide (97 ≤ c.toNat ∧ c.toNat ≤ 122) ||
    decide (48 ≤ c.toNat ∧ c.toNat ≤ 57) || c == '_' || c == '/'

/-- `re.findall(r"[A-Za-z0-9_/]+", s)`: maximal runs of token
characters, in order.  `acc` holds the current run reversed. -/
def tokenizeGo (acc : List Char) : List Char → List String
  | [] => if acc.isEmpty then [] else [⟨acc.reverse⟩]
  | c :: cs =>
      if isTokenChar c then tokenizeGo (c :: acc) cs
      else if acc.isEmpty then tokenizeGo [] cs
      else ⟨acc.reverse⟩ :: tokenizeGo [] cs

/-- The query tokens of `_fetch_and_boost`:
`set(re.findall(r"[A-Za-z0-9_/]+", question.upper()))`, modeled as the
deduplicated token list (iteration order fixed; the boost sum is
order-independent over exact rationals). -/
def query_tokens (question : String) : List String :=
  (tokenizeGo [] (py_upper question).data).dedup

/-- The boost contributed by one query token: `TAG_BOOST` when it is
among the item's uppercased tags, plus `SAP_OBJECT_BOOST` when it is
among the uppercased SAP objects. -/
def tokenBoost (tags sap_objects : List String) (token : String) : ℚ :=
  (if token ∈ tags then TAG_BOOST else 0) +
    (if token ∈ sap_objects then SAP_OBJECT_BOOST else 0)

/-- The `for token in query_tokens` boost accumulation. -/
def itemBoost (qtokens tags sap_objects : List String) : ℚ :=
  qtokens.foldl (fun boost token => boost + tokenBoost tags sap_objects token) 0

/-- The loop body of `_fetch_and_boost` for one `(kb_id, score)` pair:
fetch the row, skip it unless it exists with status `APPROVED`, and add
the deterministic boost to its score. -/
def fetchOne (db : List Row) (qtokens : List String) (pr : String × ℚ) :
    Option (Row × ℚ) :=
  match get_by_id db pr.1 with
  | none => none
  | some item =>
      if item.status = "APPROVED" then
        some (item, pr.2 + itemBoost qtokens (item.tags.map py_upper)
          (item.sap_objects.map py_upper))
      else none

/-- `ChatService._fetch_and_boost`
(`src/assistant/chat/chat_service.py`, lines 151-190): fetch each id
from the store, keep only rows that exist with status `APPROVED`, add
the deterministic boost, and re-sort by boosted score descending
(Python's stable sort). -/
def fetch_and_boost (search_results : List (String × ℚ)) (db : List Row)
    (question : String) : List (Row × ℚ) :=
  sortByDesc (fun x => x.2)
    (search_results.filterMap (fetchOne db (query_tokens question)))

/-- `", ".join` / `"\n\n---\n\n".join`. -/
def joinSep (sep : String) : List String → String
  | [] => ""
  | [s] => s
  | s :: rest => s ++ sep ++ joinSep sep rest

/-- Rendering of `f"{score:.3f}"` over exact rationals (digit layout
approximated; the claims depend only on its determinism). -/
def format3 (q : ℚ) : String :=
  let m : Int := q.num * 1000 / (q.den : Int)
  let ip : Int := m / 1000
  let fp : Int := m % 1000
  toString ip ++ "." ++ (if fp < 10 then "00" else if fp < 100 then "0" else "") ++ toString fp

/-- The header of one context section (everything before the body). -/
def sectionHeader (i : Nat) (item : Row) (score : ℚ) : String :=
  "### [" ++ toString i ++ "] " ++ item.title ++ "\n" ++
  "Type: " ++ item.type ++ " | Tags: " ++ joinSep ", " item.tags ++
  " | SAP Objects: " ++ joinSep ", " item.sap_objects ++ "\n" ++
  "Score: " ++ format3 score ++ " | ID: " ++ item.kb_id ++ "\n\n"

/-- One context section, as built in the loop of `_build_context_pack`. -/
def sectionText (i : Nat) (item : Row) (score : ℚ) : String :=
  sectionHeader i item score ++ item.content_markdown

/-- The accumulation loop of `_build_context_pack`: `i` is the
1-based `enumerate` index, `total` the running token count. -/
def buildSections (max_tokens : Nat) : Nat → Nat → List (Row × ℚ) → List String
  | _, _, [] => []
  | i, total, (item, score) :: rest =>
      let sec := sectionText i item score
      let section_tokens := count_tokens sec
      if total + section_tokens > max_tokens then
        let remaining := max_tokens - total
        if remaining > 100 then [truncate_to_token_limit sec remaining] else []
      else sec :: buildSections max_tokens (i + 1) (total + section_tokens) rest

/-- `ChatService._build_context_pack`
(`src/assistant/chat/chat_service.py`, lines 192-227). -/
def build_context_pack (source_items : List (Row × ℚ)) (max_tokens : Nat) : String :=
  if source_items.isEmpty then "No relevant knowledge items found."
  else joinSep "\n\n---\n\n" (buildSections max_tokens 1 0 source_items)

/-- The enumerated full (untruncated) section texts, in rank order. -/
def rankSections (i : Nat) : List (Row × ℚ) → List String
  | [] => []
  | (item, score) :: rest => sectionText i item score :: rankSections (i + 1) rest

/-- The result object returned by `ChatService.answer`. -/
structure ChatResult where
  answer : String
  sources : List Row
  model_called : Bool
  used_kb_items : List (String × String × String)
deriving DecidableEq

/-- `ASSISTANT_SYSTEM_PROMPT` (abridged to its first line; the claims do
not depend on the prompt text). -/
def ASSISTANT_SYSTEM_PROMPT : String :=
  "You are an SAP IS-U technical assistant. Answer questions using ONLY the provided context."

/-- The fixed zero-results answer of `ChatService.answer`. -/
def no_results_answer : String :=
  "No se encontraron resultados relevantes en el alcance " ++
  "seleccionado. No se ha realizado consulta al modelo para " ++
  "ahorrar tokens.\n\n" ++
  "**Sugerencias:**\n" ++
  "- Ingesta documentación relevante desde la pestaña **Ingesta** " ++
  "y apruébala en **Review**.\n" ++
  "- Verifica que el alcance seleccionado (General / Cliente / " ++
  "Cliente + Standard) contiene información relevante.\n" ++
  "- Si usaste filtro de tipo, prueba sin filtro."

/-- `ChatService.answer`
(`src/assistant/chat/chat_service.py`, lines 60-149).  The embedding
service, the vector search, and the generative model are oracles
(`embedF`, `searchF`, `genF`); an `.error` models a raised exception
(`format_openai_error` / `format_qdrant_error` wrappers modeled as the
identity on the message).  Returns the result together with the number
of generative-model invocations made during the call. -/
def answer (embedF : String → Except String (List ℚ))
    (searchF : List ℚ → String → Option String → Nat → Option String →
      Except String (List (String × ℚ)))
    (genF : String → String → String → Except String String)
    (question : String) (db : List Row) (scope : String) (client_code : Option String)
    (top_k : Nat) (reasoning_effort : String) (type_filter : Option String) :
    Except String ChatResult × Nat :=
  match embedF question with
  | .error e => (.error e, 0)
  | .ok query_embedding =>
      match searchF query_embedding scope client_code top_k type_filter with
      | .error e => (.error e, 0)
      | .ok search_results =>
          let source_items := fetch_and_boost search_results db question
          if source_items.isEmpty then
            (.ok ⟨no_results_answer, [], false, []⟩, 0)
          else
            let context_pack := build_context_pack source_items MAX_CONTEXT_TOKENS
            match genF ASSISTANT_SYSTEM_PROMPT
                ("## Question\n\n" ++ question ++ "\n\n## Context\n\n" ++ context_pack)
                reasoning_effort with
            | .error e => (.error e, 1)
            | .ok text =>
                (.ok ⟨text, source_items.map Prod.fst, true,
                  (source_items.map Prod.fst).map (fun it => (it.kb_id, it.title, it.type))⟩, 1)

/-! ### Boost lemmas and C10 -/

theorem tokenBoost_nonneg (tags objs : List String) (t : String) :
    0 ≤ tokenBoost tags objs t := by
  unfold tokenBoost TAG_BOOST SAP_OBJECT_BOOST
  split_ifs <;> norm_num

theorem tokenBoost_pos (tags objs : List String) (t : String)
    (hm : t ∈ tags ∨ t ∈ objs) : 0 < tokenBoost tags objs t := by
  unfold tokenBoost
  rcases hm with h | h
  · have h1 : (0:ℚ) < if t ∈ tags then TAG_BOOST else 0 := by
      rw [if_pos h]; norm_num [TAG_BOOST]
    have h2 : (0:ℚ) ≤ if t ∈ objs then SAP_OBJECT_BOOST else 0 := by
      split_ifs <;> norm_num [SAP_OBJECT_BOOST]
    linarith
  · have h1 : (0:ℚ) ≤ if t ∈ tags then TAG_BOOST else 0 := by
      split_ifs <;> norm_num [TAG_BOOST]
    have h2 : (0:ℚ) < if t ∈ objs then SAP_OBJECT_BOOST else 0 := by
      rw [if_pos h]; norm_num [SAP_OBJECT_BOOST]
    linarith

theorem foldl_boost_le (tags objs : List String) :
    ∀ (l : List String) (b : ℚ),
      b ≤ l.foldl (fun acc tok => acc + tokenBoost tags objs tok) b := by
  intro l
  induction l with
  | nil => intro b; exact le_refl b
  | cons q qs ih =>
      intro b
      simp only [List.foldl_cons]
      exact le_trans (le_add_of_nonneg_right (tokenBoost_nonneg tags objs q)) (ih _)

theorem itemBoost_pos (qt tags objs : List String) (t : String)
    (ht : t ∈ qt) (hm : t ∈ tags ∨ t ∈ objs) : 0 < itemBoost qt tags objs := by
  unfold itemBoost
  suffices h : ∀ (l : List String) (b : ℚ), t ∈ l →
      b < l.foldl (fun acc tok => acc + tokenBoost tags objs tok) b from h qt 0 ht
  intro l
  induction l with
  | nil => intro b hb; cases hb
  | cons q qs ih =>
      intro b hb
      simp only [List.foldl_cons]
      rcases List.mem_cons.mp hb with rfl | hb
      · exact lt_of_lt_of_le (lt_add_of_pos_right b (tokenBoost_pos tags objs t hm))
          (foldl_boost_le tags objs qs _)
      · exact lt_of_le_of_lt (le_add_of_nonneg_right (tokenBoost_nonneg tags objs q)) (ih _ hb)

theorem itemBoost_eq_zero (qt tags objs : List String)
    (hno : ∀ u ∈ qt, u ∉ tags ∧ u ∉ objs) : itemBoost qt tags objs = 0 := by
  unfold itemBoost
  suffices h : ∀ (l : List String) (b : ℚ), (∀ u ∈ l, u ∉ tags ∧ u ∉ objs) →
      l.foldl (fun acc tok => acc + tokenBoost tags objs tok) b = b from h qt 0 hno
  intro l
  induction l with
  | nil => intro b _; rfl
  | cons q qs ih =>
      intro b hq
      simp only [List.foldl_cons]
      have hzero : tokenBoost tags objs q = 0 := by
        obtain ⟨h1, h2⟩ := hq q (List.mem_cons_self q qs)
        rw [tokenBoost, if_neg h1, if_neg h2]
        norm_num
      rw [hzero, add_zero]
      exact ih b (fun u hu => hq u (List.mem_cons_of_mem _ hu))

theorem sortByDesc_pair_le {α : Type} (key : α → ℚ) (x y : α) (h : key y ≤ key x) :
    sortByDesc key [x, y] = [x, y] := by
  simp only [sortByDesc, insertByDesc]
  rw [if_pos h]

theorem sortByDesc_pair_gt {α : Type} (key : α → ℚ) (x y : α) (h : ¬(key x ≤ key y)) :
    sortByDesc key [y, x] = [x, y] := by
  simp only [sortByDesc, insertByDesc]
  rw [if_neg h]

/-- **C10.** Boost determinism and match dominance: `_fetch_and_boost`
is a pure function of its inputs (same inputs, identical output), and
with two candidates of equal base score — one with a tag or SAP-object
exactly matching an uppercase token of the question, the other with no
matching tag or object — the matching candidate ranks strictly above
the other, in either input order. -/
theorem boost_determinism_dominance (question : String) (db : List Row)
    (idA idB : String) (s : ℚ) (A B : Row) (t : String)
    (hA : get_by_id db idA = some A) (hB : get_by_id db idB = some B)
    (hAst : A.status = "APPROVED") (hBst : B.status = "APPROVED")
    (ht : t ∈ query_tokens question)
    (hmatch : t ∈ A.tags.map py_upper ∨ t ∈ A.sap_objects.map py_upper)
    (hnomatch : ∀ u ∈ query_tokens question,
      u ∉ B.tags.map py_upper ∧ u ∉ B.sap_objects.map py_upper) :
    (∀ res : List (String × ℚ),
      fetch_and_boost res db question = fetch_and_boost res db question) ∧
    0 < itemBoost (query_tokens question) (A.tags.map py_upper) (A.sap_objects.map py_upper) ∧
    fetch_and_boost [(idA, s), (idB, s)] db question =
      [(A, s + itemBoost (query_tokens question) (A.tags.map py_upper)
        (A.sap_objects.map py_upper)), (B, s)] ∧
    fetch_and_boost [(idB, s), (idA, s)] db question =
      [(A, s + itemBoost (query_tokens question) (A.tags.map py_upper)
        (A.sap_objects.map py_upper)), (B, s)] := by
  have hbApos : 0 < itemBoost (query_tokens question) (A.tags.map py_upper)
      (A.sap_objects.map py_upper) := itemBoost_pos _ _ _ t ht hmatch
  have hbB : itemBoost (query_tokens question) (B.tags.map py_upper)
      (B.sap_objects.map py_upper) = 0 := itemBoost_eq_zero _ _ _ hnomatch
  have hfA : fetchOne db (query_tokens question) (idA, s) =
      some (A, s + itemBoost (query_tokens question) (A.tags.map py_upper)
        (A.sap_objects.map py_upper)) := by
    simp only [fetchOne, hA]
    simp [hAst]
  have hfB : fetchOne db (query_tokens question) (idB, s) = some (B, s) := by
    simp only [fetchOne, hB]
    simp [hBst, hbB]
  have h1 : s ≤ s + itemBoost (query_tokens question) (A.tags.map py_upper)
      (A.sap_objects.map py_upper) := le_add_of_nonneg_right hbApos.le
  have h2 : ¬(s + itemBoost (query_tokens question) (A.tags.map py_upper)
      (A.sap_objects.map py_upper) ≤ s) := not_le.mpr (lt_add_of_pos_right s hbApos)
  have hfm1 : List.filterMap (fetchOne db (query_tokens question)) [(idA, s), (idB, s)] =
      [(A, s + itemBoost (query_tokens question) (A.tags.map py_upper)
        (A.sap_objects.map py_upper)), (B, s)] := by
    rw [List.filterMap_cons, hfA, List.filterMap_cons, hfB, List.filterMap_nil]
  have hfm2 : List.filterMap (fetchOne db (query_tokens question)) [(idB, s), (idA, s)] =
      [(B, s), (A, s + itemBoost (query_tokens question) (A.tags.map py_upper)
        (A.sap_objects.map py_upper))] := by
    rw [List.filterMap_cons, hfB, List.filterMap_cons, hfA, List.filterMap_nil]
  refine ⟨fun res => rfl, hbApos, ?_, ?_⟩
  · unfold fetch_and_boost
    rw [hfm1]
    exact sortByDesc_pair_le (fun x => x.2)
      (A, s + itemBoost (query_tokens question) (A.tags.map py_upper)
        (A.sap_objects.map py_upper)) (B, s) h1
  · unfold fetch_and_boost
    rw [hfm2]
    exact sortByDesc_pair_gt (fun x => x.2)
      (A, s + itemBoost (query_tokens question) (A.tags.map py_upper)
        (A.sap_objects.map py_upper)) (B, s) h2

/-- Witness for `boost_determinism_dominance`: question "How about EA10"
with item A tagged EA10 and item B untagged, equal base score. -/
theorem boost_determinism_dominance_witness :
    get_by_id
        [⟨"a", "standard", none, "R", "TA", "ca", ["ea10"], [], "", "", 1, "APPROVED", "h", "t", "t"⟩,
         ⟨"b", "standard", none, "R", "TB", "cb", [], [], "", "", 1, "APPROVED", "h", "t", "t"⟩]
        "a" =
      some ⟨"a", "standard", none, "R", "TA", "ca", ["ea10"], [], "", "", 1, "APPROVED", "h", "t", "t"⟩ ∧
    ("EA10" ∈ query_tokens "How about EA10") ∧
    ("EA10" ∈ (["ea10"] : List String).map py_upper) ∧
    (∀ u ∈ query_tokens "How about EA10",
      u ∉ (([] : List String)).map py_upper ∧ u ∉ (([] : List String)).map py_upper) ∧
    0 < itemBoost (query_tokens "How about EA10") ((["ea10"] : List String).map py_upper)
      (([] : List String).map py_upper) ∧
    fetch_and_boost [("a", 1), ("b", 1)]
        [⟨"a", "standard", none, "R", "TA", "ca", ["ea10"], [], "", "", 1, "APPROVED", "h", "t", "t"⟩,
         ⟨"b", "standard", none, "R", "TB", "cb", [], [], "", "", 1, "APPROVED", "h", "t", "t"⟩]
        "How about EA10" =
      [(⟨"a", "standard", none, "R", "TA", "ca", ["ea10"], [], "", "", 1, "APPROVED", "h", "t", "t"⟩,
        1 + itemBoost (query_tokens "How about EA10") ((["ea10"] : List String).map py_upper)
          (([] : List String).map py_upper)),
       (⟨"b", "standard", none, "R", "TB", "cb", [], [], "", "", 1, "APPROVED", "h", "t", "t"⟩, 1)] ∧
    fetch_and_boost [("b", 1), ("a", 1)]
        [⟨"a", "standard", none, "R", "TA", "ca", ["ea10"], [], "", "", 1, "APPROVED", "h", "t", "t"⟩,
         ⟨"b", "standard", none, "R", "TB", "cb", [], [], "", "", 1, "APPROVED", "h", "t", "t"⟩]
        "How about EA10" =
      [(⟨"a", "standard", none, "R", "TA", "ca", ["ea10"], [], "", "", 1, "APPROVED", "h", "t", "t"⟩,
        1 + itemBoost (query_tokens "How about EA10") ((["ea10"] : List String).map py_upper)
          (([] : List String).map py_upper)),
       (⟨"b", "standard", none, "R", "TB", "cb", [], [], "", "", 1, "APPROVED", "h", "t", "t"⟩, 1)] := by
  have h := boost_determinism_dominance "How about EA10"
    [⟨"a", "standard", none, "R", "TA", "ca", ["ea10"], [], "", "", 1, "APPROVED", "h", "t", "t"⟩,
     ⟨"b", "standard", none, "R", "TB", "cb", [], [], "", "", 1, "APPROVED", "h", "t", "t"⟩]
    "a" "b" 1
    ⟨"a", "standard", none, "R", "TA", "ca", ["ea10"], [], "", "", 1, "APPROVED", "h", "t", "t"⟩
    ⟨"b", "standard", none, "R", "TB", "cb", [], [], "", "", 1, "APPROVED", "h", "t", "t"⟩
    "EA10" (by decide) (by decide) (by decide) (by decide) (by decide) (by decide)
    (by decide)
  exact ⟨by decide, by decide, by decide, by decide, h.2.1, h.2.2.1, h.2.2.2⟩

/-! ### Zero-result gating (C4) -/

/-- **C4.** Zero-result gating: whenever the embedding and the scoped
vector search succeed but no returned id exists in the store with
status `APPROVED`, `ChatService.answer` returns (does not raise) the
fixed no-results answer with `model_called = false` and no sources, and
the generative model is never invoked (zero generator calls, for every
generator oracle). -/
theorem zero_result_gate (embedF : String → Except String (List ℚ))
    (searchF : List ℚ → String → Option String → Nat → Option String →
      Except String (List (String × ℚ)))
    (genF : String → String → String → Except String String)
    (question : String) (db : List Row) (scope : String) (client_code : Option String)
    (top_k : Nat) (reasoning_effort : String) (type_filter : Option String)
    (emb : List ℚ) (res : List (String × ℚ))
    (hemb : embedF question = .ok emb)
    (hsearch : searchF emb scope client_code top_k type_filter = .ok res)
    (hnone : ∀ p ∈ res, ∀ item : Row, get_by_id db p.1 = some item →
      item.status ≠ "APPROVED") :
    answer embedF searchF genF question db scope client_code top_k reasoning_effort
      type_filter = (.ok ⟨no_results_answer, [], false, []⟩, 0) := by
  have hnil : fetch_and_boost res db question = [] := by
    unfold fetch_and_boost
    have hfm : res.filterMap (fetchOne db (query_tokens question)) = [] := by
      rw [List.filterMap_eq_nil_iff]
      intro p hp
      unfold fetchOne
      cases hg : get_by_id db p.1 with
      | none => rfl
      | some item =>
          have := hnone p hp item hg
          simp [this]
    rw [hfm]
    rfl
  simp only [answer, hemb, hsearch, hnil]
  rfl

/-- Witness for `zero_result_gate`: the search returns one id whose row
is a draft, so the gate fires. -/
theorem zero_result_gate_witness :
    ((fun q : String => (Except.ok ([] : List ℚ) : Except String (List ℚ))) "q" =
      .ok ([] : List ℚ)) ∧
    ((fun (e : List ℚ) (s : String) (c : Option String) (k : Nat) (f : Option String) =>
        (Except.ok [("kb1", (1 : ℚ))] : Except String (List (String × ℚ))))
      ([] : List ℚ) "general" none 8 none = .ok [("kb1", (1 : ℚ))]) ∧
    (∀ p ∈ [("kb1", (1 : ℚ))], ∀ item : Row,
      get_by_id [⟨"kb1", "standard", none, "R", "T", "c", [], [], "", "", 1, "DRAFT", "h", "t", "t"⟩]
        p.1 = some item → item.status ≠ "APPROVED") ∧
    answer (fun q : String => (Except.ok ([] : List ℚ) : Except String (List ℚ)))
      (fun (e : List ℚ) (s : String) (c : Option String) (k : Nat) (f : Option String) =>
        (Except.ok [("kb1", (1 : ℚ))] : Except String (List (String × ℚ))))
      (fun (i inp eff : String) => (Except.ok "generated" : Except String String))
      "q" [⟨"kb1", "standard", none, "R", "T", "c", [], [], "", "", 1, "DRAFT", "h", "t", "t"⟩]
      "general" none 8 "high" none = (.ok ⟨no_results_answer, [], false, []⟩, 0) := by
  have hno : ∀ p ∈ [("kb1", (1 : ℚ))], ∀ item : Row,
      get_by_id [⟨"kb1", "standard", none, "R", "T", "c", [], [], "", "", 1, "DRAFT", "h", "t", "t"⟩]
        p.1 = some item → item.status ≠ "APPROVED" := by
    intro p hp item hit
    rw [List.mem_singleton] at hp
    subst hp
    have hitem : item = ⟨"kb1", "standard", none, "R", "T", "c", [], [], "", "", 1, "DRAFT", "h", "t", "t"⟩ := by
      have hrfl : get_by_id
          [⟨"kb1", "standard", none, "R", "T", "c", [], [], "", "", 1, "DRAFT", "h", "t", "t"⟩]
          ("kb1", (1 : ℚ)).1 =
          some ⟨"kb1", "standard", none, "R", "T", "c", [], [], "", "", 1, "DRAFT", "h", "t", "t"⟩ := by
        decide
      rw [hrfl] at hit
      exact (Option.some.inj hit).symm
    subst hitem
    decide
  exact ⟨rfl, rfl, hno,
    zero_result_gate (fun q : String => (Except.ok ([] : List ℚ) : Except String (List ℚ)))
      (fun (e : List ℚ) (s : String) (c : Option String) (k : Nat) (f : Option String) =>
        (Except.ok [("kb1", (1 : ℚ))] : Except String (List (String × ℚ))))
      (fun (i inp eff : String) => (Except.ok "generated" : Except String String))
      "q" [⟨"kb1", "standard", none, "R", "T", "c", [], [], "", "", 1, "DRAFT", "h", "t", "t"⟩]
      "general" none 8 "high" none ([] : List ℚ) [("kb1", (1 : ℚ))] rfl rfl hno⟩

/-! ### Context token budget (C6) -/

theorem str_length_append (a b : String) : (a ++ b).length = a.length + b.length := by
  cases a with
  | mk ad =>
      cases b with
      | mk bd =>
          show (ad ++ bd).length = ad.length + bd.length
          exact List.length_append ad bd

theorem buildSections_tokens_le (max_tokens : Nat) :
    ∀ (l : List (Row × ℚ)) (i total : Nat),
      ((buildSections max_tokens i total l).map count_tokens).sum ≤ max_tokens - total := by
  intro l
  induction l with
  | nil => intro i total; simp [buildSections]
  | cons p rest ih =>
      intro i total
      obtain ⟨item, score⟩ := p
      simp only [buildSections]
      by_cases hgt : total + count_tokens (sectionText i item score) > max_tokens
      · rw [if_pos hgt]
        by_cases hrem : max_tokens - total > 100
        · rw [if_pos hrem]
          simp only [List.map_cons, List.map_nil, List.sum_cons, List.sum_nil, Nat.add_zero]
          exact truncate_length_le _ _
        · rw [if_neg hrem]
          simp
      · rw [if_neg hgt]
        simp only [List.map_cons, List.sum_cons]
        have hrec := ih (i + 1) (total + count_tokens (sectionText i item score))
        omega

theorem buildSections_length_le (max_tokens : Nat) :
    ∀ (l : List (Row × ℚ)) (i total : Nat),
      (buildSections max_tokens i total l).length ≤ l.length := by
  intro l
  induction l with
  | nil => intro i total; simp [buildSections]
  | cons p rest ih =>
      intro i total
      obtain ⟨item, score⟩ := p
      simp only [buildSections]
      by_cases hgt : total + count_tokens (sectionText i item score) > max_tokens
      · rw [if_pos hgt]
        by_cases hrem : max_tokens - total > 100
        · rw [if_pos hrem]; simp
        · rw [if_neg hrem]; simp
      · rw [if_neg hgt]
        simp only [List.length_cons]
        exact Nat.succ_le_succ (ih (i + 1) _)

theorem buildSections_structure (max_tokens : Nat) :
    ∀ (l : List (Row × ℚ)) (i total : Nat),
      ∃ k, k ≤ l.length ∧
        (buildSections max_tokens i total l = (rankSections i l).take k ∨
         (k < l.length ∧ ∃ r, 100 < r ∧
           buildSections max_tokens i total l =
             (rankSections i l).take k ++
               [truncate_to_token_limit ((rankSections i l).getD k "") r])) := by
  intro l
  induction l with
  | nil => intro i total; exact ⟨0, le_refl 0, Or.inl rfl⟩
  | cons p rest ih =>
      intro i total
      obtain ⟨item, score⟩ := p
      simp only [buildSections, rankSections]
      by_cases hgt : total + count_tokens (sectionText i item score) > max_tokens
      · rw [if_pos hgt]
        by_cases hrem : max_tokens - total > 100
        · rw [if_pos hrem]
          refine ⟨0, Nat.zero_le _, Or.inr ⟨Nat.succ_pos _, max_tokens - total, hrem, ?_⟩⟩
          simp
        · rw [if_neg hrem]
          exact ⟨0, Nat.zero_le _, Or.inl rfl⟩
      · rw [if_neg hgt]
        obtain ⟨k, hk, hcase⟩ := ih (i + 1) (total + count_tokens (sectionText i item score))
        refine ⟨k + 1, Nat.succ_le_succ hk, ?_⟩
        rcases hcase with heq | ⟨hklt, r, hr, heq⟩
        · left
          rw [heq, List.take_succ_cons]
        · right
          refine ⟨Nat.succ_lt_succ hklt, r, hr, ?_⟩
          rw [heq, List.take_succ_cons, List.getD_cons_succ, List.cons_append]

theorem joinSep_length_le (sep : String) :
    ∀ ss : List String,
      (joinSep sep ss).length ≤ (ss.map String.length).sum + sep.length * (ss.length - 1) := by
  intro ss
  induction ss with
  | nil => simp [joinSep]
  | cons s rest ih =>
      cases rest with
      | nil => simp [joinSep]
      | cons t ts =>
          simp only [joinSep] at ih ⊢
          rw [str_length_append, str_length_append]
          simp only [List.map_cons, List.sum_cons, List.length_cons] at ih ⊢
          rw [Nat.add_sub_cancel] at ih ⊢
          rw [Nat.mul_succ]
          omega

theorem buildSections_cons (max_tokens i total : Nat) (item : Row) (score : ℚ)
    (rest : List (Row × ℚ)) :
    buildSections max_tokens i total ((item, score) :: rest) =
      if total + count_tokens (sectionText i item score) > max_tokens then
        (if max_tokens - total > 100 then
          [truncate_to_token_limit (sectionText i item score) (max_tokens - total)]
        else [])
      else
        sectionText i item score ::
          buildSections max_tokens (i + 1) (total + count_tokens (sectionText i item score))
            rest := rfl

/-- A 50000-token context candidate (66-token header, 49934-token
body), used to exhibit the uncounted-separator overflow. -/
def bigItem (kb_id : String) : Row :=
  ⟨kb_id, "standard", none, "R", "T", ⟨List.replicate 49934 'a'⟩, [], [], "", "", 1,
    "APPROVED", "h", "t", "t"⟩

set_option maxRecDepth 2000 in
/-- **C6, counterexample.** The claim asserts the token count of the
returned string never exceeds `MAX_CONTEXT_TOKENS`.  With two candidates
whose sections are 50000 tokens each, the loop admits both (running
total exactly 100000), but the `"\n\n---\n\n"` separator inserted by
`join` is not counted against the budget, so the returned string has
100007 tokens. -/
theorem context_budget_exceeded :
    MAX_CONTEXT_TOKENS < count_tokens (build_context_pack
      [(bigItem "i1", 1), (bigItem "i2", 1)] MAX_CONTEXT_TOKENS) := by
  have hcontent : (String.mk (List.replicate 49934 'a')).length = 49934 := by
    show (List.replicate 49934 'a').length = 49934
    exact List.length_replicate 49934 'a'
  have hh1 : (sectionHeader 1 (bigItem "i1") (1 : ℚ)).length = 66 := by decide
  have hh2 : (sectionHeader 2 (bigItem "i2") (1 : ℚ)).length = 66 := by decide
  have hs1 : (sectionText 1 (bigItem "i1") (1 : ℚ)).length = 50000 := by
    show (sectionHeader 1 (bigItem "i1") (1 : ℚ) ++ String.mk (List.replicate 49934 'a')).length
      = 50000
    rw [str_length_append, hh1, hcontent]
  have hs2 : (sectionText 2 (bigItem "i2") (1 : ℚ)).length = 50000 := by
    show (sectionHeader 2 (bigItem "i2") (1 : ℚ) ++ String.mk (List.replicate 49934 'a')).length
      = 50000
    rw [str_length_append, hh2, hcontent]
  have hs1c : count_tokens (sectionText 1 (bigItem "i1") (1 : ℚ)) = 50000 := by
    rw [count_tokens]
    exact hs1
  have hs2c : count_tokens (sectionText 2 (bigItem "i2") (1 : ℚ)) = 50000 := by
    rw [count_tokens]
    exact hs2
  have hc1 : ¬(0 + count_tokens (sectionText 1 (bigItem "i1") (1 : ℚ)) > MAX_CONTEXT_TOKENS) := by
    rw [hs1c]
    norm_num [MAX_CONTEXT_TOKENS]
  have hc2 : ¬(0 + count_tokens (sectionText 1 (bigItem "i1") (1 : ℚ)) +
      count_tokens (sectionText 2 (bigItem "i2") (1 : ℚ)) > MAX_CONTEXT_TOKENS) := by
    rw [hs1c, hs2c]
    norm_num [MAX_CONTEXT_TOKENS]
  have hb : buildSections MAX_CONTEXT_TOKENS 1 0 [(bigItem "i1", 1), (bigItem "i2", 1)] =
      [sectionText 1 (bigItem "i1") (1 : ℚ), sectionText 2 (bigItem "i2") (1 : ℚ)] := by
    rw [buildSections_cons, if_neg hc1]
    show sectionText 1 (bigItem "i1") (1 : ℚ) ::
        buildSections MAX_CONTEXT_TOKENS 2
          (0 + count_tokens (sectionText 1 (bigItem "i1") (1 : ℚ))) [(bigItem "i2", 1)] =
      [sectionText 1 (bigItem "i1") (1 : ℚ), sectionText 2 (bigItem "i2") (1 : ℚ)]
    rw [buildSections_cons, if_neg hc2]
    rfl
  have hjoin : build_context_pack [(bigItem "i1", 1), (bigItem "i2", 1)] MAX_CONTEXT_TOKENS =
      sectionText 1 (bigItem "i1") (1 : ℚ) ++ "\n\n---\n\n" ++
        sectionText 2 (bigItem "i2") (1 : ℚ) := by
    rw [build_context_pack, if_neg (by simp), hb]
    rfl
  show MAX_CONTEXT_TOKENS < (build_context_pack
    [(bigItem "i1", 1), (bigItem "i2", 1)] MAX_CONTEXT_TOKENS).length
  rw [hjoin, str_length_append, str_length_append,
    show ("\n\n---\n\n" : String).length = 7 from rfl, hs1, hs2]
  norm_num [MAX_CONTEXT_TOKENS]

/-- **C6, amended.** The sum of the counted per-section tokens never
exceeds the budget, so the returned string exceeds the budget only by
the uncounted 7-token `"\n\n---\n\n"` separators — its token count is
at most `max_tokens + 7 * (candidates - 1)`; the included sections are,
in rank order, full sections of a prefix of the candidates, optionally
ending in one truncated section, and a section is truncated only when
the remaining budget exceeds the 100-token floor. -/
theorem context_pack_structure (source_items : List (Row × ℚ)) (max_tokens : Nat)
    (h : source_items ≠ []) :
    count_tokens (build_context_pack source_items max_tokens) ≤
      max_tokens + 7 * (source_items.length - 1) ∧
    ∃ k, k ≤ source_items.length ∧
      (buildSections max_tokens 1 0 source_items = (rankSections 1 source_items).take k ∨
       (k < source_items.length ∧ ∃ r, 100 < r ∧
         buildSections max_tokens 1 0 source_items =
           (rankSections 1 source_items).take k ++
             [truncate_to_token_limit ((rankSections 1 source_items).getD k "") r])) := by
  constructor
  · rw [build_context_pack, if_neg (by simpa using h)]
    have h1 := joinSep_length_le "\n\n---\n\n" (buildSections max_tokens 1 0 source_items)
    have h2 := buildSections_tokens_le max_tokens source_items 1 0
    have h3 := buildSections_length_le max_tokens source_items 1 0
    have h4 : ((buildSections max_tokens 1 0 source_items).map String.length).sum =
        ((buildSections max_tokens 1 0 source_items).map count_tokens).sum := rfl
    have h5 : ("\n\n---\n\n" : String).length = 7 := rfl
    show (joinSep "\n\n---\n\n" (buildSections max_tokens 1 0 source_items)).length ≤ _
    rw [h4, h5] at h1
    have h6 : 7 * ((buildSections max_tokens 1 0 source_items).length - 1) ≤
        7 * (source_items.length - 1) := by
      apply Nat.mul_le_mul_left
      omega
    omega
  · exact buildSections_structure max_tokens source_items 1 0

/-- A small context candidate used by the `context_pack_structure`
witness. -/
def smallItem : Row :=
  ⟨"i1", "standard", none, "R", "T", "c", [], [], "", "", 1, "APPROVED", "h", "t", "t"⟩

/-- Witness for `context_pack_structure` at a concrete input. -/
theorem context_pack_structure_witness :
    ([(smallItem, (1 : ℚ))] ≠ []) ∧
    (count_tokens (build_context_pack [(smallItem, (1 : ℚ))] 200) ≤
        200 + 7 * ([(smallItem, (1 : ℚ))].length - 1) ∧
      ∃ k, k ≤ [(smallItem, (1 : ℚ))].length ∧
        (buildSections 200 1 0 [(smallItem, (1 : ℚ))] =
          (rankSections 1 [(smallItem, (1 : ℚ))]).take k ∨
         (k < [(smallItem, (1 : ℚ))].length ∧ ∃ r, 100 < r ∧
           buildSections 200 1 0 [(smallItem, (1 : ℚ))] =
             (rankSections 1 [(smallItem, (1 : ℚ))]).take k ++
               [truncate_to_token_limit ((rankSections 1 [(smallItem, (1 : ℚ))]).getD k "")
                 r]))) :=
  ⟨by decide, context_pack_structure [(smallItem, (1 : ℚ))] 200 (by decide)⟩

end SapIsu
